import Mathlib

/-!
Verification development for the pycpidr idea-density rater.

This file gives a shallow embedding, in Lean 4, of the parts of the
repository that the specification's claims are about:

* `pycpidr/word_item.py` (WordListItem, WordList),
* `pycpidr/utils/constants.py` (tag and word sets),
* `pycpidr/utils/word_search_utils.py` (beginning_of_sentence,
  is_repetition, search_backwards),
* `pycpidr/idea_density_rater_rules.py` (the seven rule functions and the
  apply_idea_counting_rules driver loop),
* `pycpidr/idea_density_rater.py` (rate_text, count_words_and_propositions),
* the type-check raising in `pycpidr/tagger.py` (tag_text).

Modelling conventions:

* Python strings are modelled by `String`; the string operations used by the
  source (`str.lower`, `str.endswith`, `str.startswith`, `s[0].isalnum()`,
  `len`, slicing off the last character) are defined below over the
  character list `String.data` so that every definition evaluates inside the
  Lean kernel.  The source only ever applies `s[0]` to non-empty strings
  (the driver loop skips items with an empty token, and rule 004 guards
  `len(previous.token) > 0`), so the embedding's total `pyFirstChar` agrees
  with Python on every reachable call.
* Python `list` mutation is modelled by explicit list values:
  `list.insert` / `del` are `pyInsert` / `pyDelete` below, which agree with
  Python's clamping `insert` for every index and with `del` for in-range
  indices (the only ones the source uses).
* The spaCy tagger and the Levenshtein `ratio` function are external
  dependencies (not part of this repository); they are passed as explicit
  parameters (`tagger`, `ratioFn`).  No claim in scope depends on their
  values.
* The in-place mutations that Python performs through object references
  (e.g. `search_backwards` returns an item object that the caller then
  mutates) are modelled by returning the item's index
  (`search_backwards_index`) and rebuilding the list with `List.set`.
* Python `int`/`bool` are `Nat`/`Bool`; the float division in `rate_text`
  is modelled by exact division in `ℚ` (the claims about density concern
  the quotient `propositionCount / wordCount`, not rounding).
* The driver loop `apply_idea_counting_rules` is a `while` loop that can
  grow the list it iterates over; it is embedded with an explicit fuel
  parameter, returning `none` when the fuel is exhausted.  A run of the
  Python loop terminates exactly when some fuel suffices.
-/

namespace PyCPIDR

/-- Python `s.lower()` on the character list of `s`. -/
def pyLower (s : String) : String := ⟨s.data.map Char.toLower⟩

/-- Python `s.endswith(suffix)`. -/
def pyEndsWith (s suffix : String) : Bool := suffix.data.isSuffixOf s.data

/-- Python `s.startswith(prefix)`. -/
def pyStartsWith (s pre : String) : Bool := pre.data.isPrefixOf s.data

/-- Python `len(s)` (number of characters). -/
def pyLen (s : String) : Nat := s.data.length

/-- Python `s[0]` for the non-empty strings on which the source uses it. -/
def pyFirstChar (s : String) : Char := s.data.headD 'A'

/-- Python `s[:-1]` (drop the final character). -/
def pyDropLast (s : String) : String := ⟨s.data.dropLast⟩

/-- Python `list.insert(n, a)`: inserts before position `n`, clamping `n`
to the list length (so an out-of-range `n` appends at the end). -/
def pyInsert (l : List α) (n : Nat) (a : α) : List α :=
  l.take n ++ a :: l.drop n

/-- Python `del l[n]` for an in-range `n` (the source only deletes in-range
indices). -/
def pyDelete (l : List α) (n : Nat) : List α :=
  l.take n ++ l.drop (n + 1)

/-- Decidable equality for `Except`, used to evaluate concrete runs of
`rate_text` inside the kernel. -/
instance exceptDecEq {e a : Type _} [DecidableEq e] [DecidableEq a] :
    DecidableEq (Except e a)
  | .error x, .error y =>
    if h : x = y then .isTrue (h ▸ rfl)
    else .isFalse (fun hc => h (Except.error.inj hc))
  | .error _, .ok _ => .isFalse Except.noConfusion
  | .ok _, .error _ => .isFalse Except.noConfusion
  | .ok x, .ok y =>
    if h : x = y then .isTrue (h ▸ rfl)
    else .isFalse (fun hc => h (Except.ok.inj hc))

/-! ## Data model: `pycpidr/word_item.py` -/

/-- One token slot, mirroring `WordListItem` in `pycpidr/word_item.py`.
`rule_number` stores the numeric value of the rule recorded on the item
(the source stores either a plain `int` or a `RuleNumber` enum member; the
embedding uses the enum's numeric value). -/
structure WordListItem where
  token : String
  tag : String
  is_word : Bool
  is_proposition : Bool
  rule_number : Nat
  lowercase_token : String
deriving Repr, DecidableEq

/-- The `WordListItem.__init__` constructor: `lowercase_token` is computed
from `token` here and only here. -/
def mkWordListItem (token tag : String) (is_word is_proposition : Bool)
    (rule_number : Nat) : WordListItem :=
  ⟨token, tag, is_word, is_proposition, rule_number, pyLower token⟩

/-- `WordListItem()` with all defaults: the sentinel item. -/
def sentinelItem : WordListItem := mkWordListItem "" "" false false 0

/-- `WordList.DEFAULT_ITEM_COUNT`. -/
def DEFAULT_ITEM_COUNT : Nat := 10

/-- `WordList.__init__`: ten sentinel items followed by one item per
tagged pair.  (The source writes `[WordListItem()] * 10`, ten aliases of a
single object; since no rule ever mutates a sentinel — proved below for the
fields the claims mention — the aliasing is unobservable and the embedding
uses ten equal values.) -/
def wordListItems (tagged : List (String × String)) : List WordListItem :=
  List.replicate DEFAULT_ITEM_COUNT sentinelItem ++
    tagged.map (fun p => mkWordListItem p.1 p.2 false false 0)

/-! ## Constants: `pycpidr/utils/constants.py` -/

def PUNCTUATION : List String := [":", ",", "."]
def ADJECTIVES : List String := ["JJ", "JJR", "JJS"]
def ADVERBS : List String := ["RB", "RBR", "RBS", "WRB"]
def VERBS : List String := ["VB", "VBD", "VBG", "VBN", "VBP", "VBZ"]
def NOUNS : List String := ["NN", "NNS", "NNP", "NNPS"]
def INTERROGATIVES : List String := ["WDT", "WP", "WPS", "WRB"]

def DEFAULT_PROPOSITIONS : List String :=
  ["CC", "CD", "DT", "IN", "JJ", "JJR", "JJS", "PDT", "POS", "PRP$",
   "PP$", "RB", "RBR", "RBS", "TO", "VB", "VBD", "VBG", "VBN", "VBP",
   "VBZ", "WDT", "WP", "WPS", "WRB"]

def FILLER : List String := ["and", "or", "but", "if", "that", "just", "you", "know"]

def BE : List String := ["am", "is", "are", "was", "were", "being", "been"]

/-- The `NT` set.  The source writes the adjacent string literals
`"don't" "don't"`, which Python concatenates into the single element
`"don'tdon't"`; the embedding reproduces that element faithfully. -/
def NT : List String :=
  ["didn't", "didnt", "don'tdon't", "dont", "can't", "cant", "couldn't",
   "couldnt", "won't", "wont", "wouldn't", "wouldnt"]

def AUXILIARY_VERBS : List String :=
  ["be", "am", "is", "are", "was", "were", "being", "been",
   "have", "has", "had", "having", "do", "does", "did", "need", "dare"]

def LINKING_VERBS : List String :=
  ["be", "am", "is", "are", "was", "were", "been", "being",
   "become", "becomes", "became", "becoming",
   "get", "gets", "got", "gotten", "getting",
   "look", "looks", "looked", "looking",
   "seem", "seems", "seemed", "seeming",
   "appear", "appears", "appeared", "appearing",
   "sound", "sounds", "sounded", "sounding",
   "feel", "feels", "felt", "feeling",
   "smell", "smells", "smelled", "smelling",
   "taste", "tastes", "tasted", "tasting"]

def CAUSATIVE_LINKING_VERBS : List String :=
  ["make", "makes", "made", "making",
   "turn", "turns", "turned", "turning",
   "paint", "paints", "painted", "painting"]

def CORRELATING_CONJUNCTIONS : List String := ["both", "either", "neither"]

def NEGATIVE_POLARITY_1 : List String := ["yet", "much", "many", "any", "anymore"]

def NEGATIVE_POLARITY_2 : List String := ["unless"]

def SENTENCE_END : String := "."

/-! ## `pycpidr/utils/word_search_utils.py` -/

def MAX_LOOKBACK : Nat := 10

/-- The `while` loop of `beginning_of_sentence`, descending from `j`:
`while j > 0 and (tag != SENTENCE_END and tag != ""): j -= 1`. -/
def bosLoop (word_list_items : List WordListItem) : Nat → Nat
  | 0 => 0
  | j + 1 =>
    if (word_list_items.getD (j + 1) sentinelItem).tag ≠ SENTENCE_END ∧
       (word_list_items.getD (j + 1) sentinelItem).tag ≠ "" then
      bosLoop word_list_items j
    else j + 1

/-- `beginning_of_sentence(word_list_items, i)`: index of the beginning of
the sentence containing position `i` (returns `j + 1` where `j` is where
the descending loop halted).  For `i = 0` the Python loop starts at
`j = -1` and returns `0`. -/
def beginning_of_sentence (word_list_items : List WordListItem) (i : Nat) : Nat :=
  if i = 0 then 0 else bosLoop word_list_items (i - 1) + 1

/-- The similarity threshold used by `is_repetition` (default parameter
`threshold = 0.8`). -/
def repetitionThreshold : ℚ := 4 / 5

/-- The common short words excluded by `is_repetition`. -/
def commonShortWords : List String :=
  ["the", "a", "an", "and", "or", "but", "in", "on", "at", "to", "for"]

/-- `is_repetition(first, second)` from `word_search_utils.py`.  The
external `Levenshtein.ratio` similarity score is the parameter `ratioFn`
(no claim in scope depends on its value).  The length comparison in the
hyphen branch is over `ℤ`, as in Python. -/
def is_repetition (ratioFn : String → String → ℚ) (first second : String) : Bool :=
  if first = "" ∨ second = "" then false
  else
    let f := pyLower first
    let s := pyLower second
    if f = s then true
    else if pyEndsWith f "-" then
      let f1 := pyDropLast f
      pyStartsWith s f1 ∧ (pyLen s : ℤ) - (pyLen f1 : ℤ) ≤ 6
    else
      ratioFn f s ≥ repetitionThreshold ∧ pyLen f > 3 ∧ f ∉ commonShortWords

/-- The descending index range `range(i - 1, max(i - MAX_LOOKBACK, -1), -1)`
of `search_backwards`: the indices `i - 1, i - 2, ...` down to (exclusive)
`max(i - 10, -1)`.  Over `ℕ` this is `min i (MAX_LOOKBACK - 1)` indices
starting at `i - 1`. -/
def searchBackwardsRange (i : Nat) : List Nat :=
  (List.range' (i - min i (MAX_LOOKBACK - 1)) (min i (MAX_LOOKBACK - 1))).reverse

/-- The body of the `search_backwards` loop over a list of indices:
break (returning `none`) at a sentence-end or empty tag, otherwise return
the first index whose item satisfies the condition. -/
def searchLoop (word_list : List WordListItem) (condition : WordListItem → Bool) :
    List Nat → Option Nat
  | [] => none
  | j :: rest =>
    let prev_word := word_list.getD j sentinelItem
    if prev_word.tag = SENTENCE_END ∨ prev_word.tag = "" then none
    else if condition prev_word then some j
    else searchLoop word_list condition rest

/-- `search_backwards`, returning the index of the found item.  (Python
returns the item object itself, which the callers then mutate in place;
the index version recovers the mutation site.) -/
def search_backwards_index (word_list : List WordListItem) (i : Nat)
    (condition : WordListItem → Bool) : Option Nat :=
  searchLoop word_list condition (searchBackwardsRange i)

/-- `search_backwards(word_list, i, condition)` as written in the source:
the first item, scanning backwards from `i - 1` within the bounded window,
that satisfies `condition`, or `None`. -/
def search_backwards (word_list : List WordListItem) (i : Nat)
    (condition : WordListItem → Bool) : Option WordListItem :=
  (search_backwards_index word_list i condition).map
    (fun j => word_list.getD j sentinelItem)

/-- The recursion of `searchBackwardsSpec`: `j` is one past the next index
to inspect, `w` is the number of window slots still available. -/
def specGo (word_list : List WordListItem) (condition : WordListItem → Bool) :
    Nat → Nat → Option WordListItem
  | _, 0 => none
  | 0, _ + 1 => none
  | j1 + 1, w + 1 =>
    let item := word_list.getD j1 sentinelItem
    if item.tag = SENTENCE_END ∨ item.tag = "" then none
    else if condition item then some item
    else specGo word_list condition j1 w

/-- The backward-search helper as the specification sentence describes it,
with the window size `k` explicit: inspect at most the `k` items
immediately preceding index `i` (never the item at `i` itself, never the
index `i - k - 1` or earlier, never below index 0), stop at the first item
whose tag is the sentence-end marker or the empty string, and return the
nearest preceding item satisfying the predicate, if any.  The claim reads
the source with `k = 10`; the equivalence and counterexample theorems
below settle which `k` the source implements. -/
def searchBackwardsSpec (k : Nat) (word_list : List WordListItem) (i : Nat)
    (condition : WordListItem → Bool) : Option WordListItem :=
  specGo word_list condition i k

/-! ## Rule engine: `pycpidr/idea_density_rater_rules.py`

Each numbered rule of the source is one definition; the per-function
compositions below mirror the source functions.  Python mutates items in
place through the local aliases `word = word_list[i]`,
`previous = word_list[i - 1]`, `two_words_back = word_list[i - 2]`; the
embedding threads the list state and re-reads the aliased positions, which
coincides with the aliased in-place mutation.  The driver only invokes the
rules at `i ≥ 10` (ten sentinels, and items with an empty token are
skipped), so truncated `Nat` subtraction in the look-behind indices is
never hit on reachable calls. -/

def MAX_LOOKAHEAD : Nat := 5

/-- Rule 001: the symbol `^` marking broken-off spoken sentences is an
end-of-sentence marker. -/
def rule001 (word_list : List WordListItem) (i : Nat) : List WordListItem :=
  let word := word_list.getD i sentinelItem
  if word.token = "^" then
    word_list.set i { word with tag := SENTENCE_END, rule_number := 1 }
  else word_list

/-- Rule 002: the item is a word if its token starts with a letter or
digit and its tag is not `SYM`. -/
def rule002 (word_list : List WordListItem) (i : Nat) : List WordListItem :=
  let word := word_list.getD i sentinelItem
  if (pyFirstChar word.token).isAlphanum ∧ word.tag ≠ "SYM" then
    word_list.set i { word with is_word := true, rule_number := 2 }
  else word_list

/-- Rule 003: two cardinal numbers in immediate succession are combined
into one; the cursor steps back and the emptied successor is deleted. -/
def rule003 (word_list : List WordListItem) (i : Nat) :
    List WordListItem × Nat :=
  let word := word_list.getD i sentinelItem
  let previous := word_list.getD (i - 1) sentinelItem
  if word.tag = "CD" ∧ previous.tag = "CD" then
    let wl2 := word_list.set (i - 1)
      { previous with token := previous.token ++ " " ++ word.token, rule_number := 3 }
    -- `i -= 1` followed by `del word_list[i + 1]` (the old position `i`)
    (pyDelete wl2 i, i - 1)
  else (word_list, i)

/-- Rule 004: cardinal + nonalphanumeric-leading token + cardinal are
combined into one token two steps back; the two emptied successors are
deleted. -/
def rule004 (word_list : List WordListItem) (i : Nat) :
    List WordListItem × Nat :=
  let word := word_list.getD i sentinelItem
  let previous := word_list.getD (i - 1) sentinelItem
  let two_words_back := word_list.getD (i - 2) sentinelItem
  if word.tag = "CD" ∧ pyLen previous.token > 0 ∧
     ¬(pyFirstChar previous.token).isAlphanum ∧ two_words_back.tag = "CD" then
    let wl2 := word_list.set (i - 2)
      { two_words_back with
        token := two_words_back.token ++ previous.token ++ word.token, rule_number := 4 }
    -- `i -= 2` followed by `del word_list[i + 1 : i + 3]`
    (pyDelete (pyDelete wl2 (i - 1)) (i - 1), i - 2)
  else (word_list, i)

/-- Rule 020 (speech mode): repetition of the form "A A" blanks the
first A. -/
def rule020 (ratioFn : String → String → ℚ) (word_list : List WordListItem)
    (i : Nat) : List WordListItem :=
  let word := word_list.getD i sentinelItem
  let previous := word_list.getD (i - 1) sentinelItem
  if is_repetition ratioFn previous.token word.token then
    word_list.set (i - 1)
      { previous with is_proposition := false, is_word := false, tag := "", rule_number := 20 }
  else word_list

/-- Rules 021 and 022 (speech mode): repetition of the form "A Punct A" or
"A B A" blanks the first A (rule 22) and, if the intervening item is
punctuation, blanks it too (rule 21). -/
def rule021022 (ratioFn : String → String → ℚ) (word_list : List WordListItem)
    (i : Nat) : List WordListItem :=
  let word := word_list.getD i sentinelItem
  let previous := word_list.getD (i - 1) sentinelItem
  let two_words_back := word_list.getD (i - 2) sentinelItem
  if is_repetition ratioFn two_words_back.token word.token ∧
     word.tag ∉ PUNCTUATION then
    let wl2 := word_list.set (i - 2)
      { two_words_back with tag := "", is_word := false, is_proposition := false, rule_number := 22 }
    if previous.tag ∈ PUNCTUATION then
      wl2.set (i - 1)
        { previous with tag := "", is_word := false, is_proposition := false, rule_number := 21 }
    else wl2
  else word_list

/-- Rule 023 (speech mode): repetition of the form "A B Punct A B" blanks
the first A, the first B and the punctuation. -/
def rule023 (ratioFn : String → String → ℚ) (word_list : List WordListItem)
    (i : Nat) : List WordListItem :=
  let word := word_list.getD i sentinelItem
  let previous := word_list.getD (i - 1) sentinelItem
  if is_repetition ratioFn (word_list.getD (i - 3) sentinelItem).token word.token ∧
     is_repetition ratioFn (word_list.getD (i - 4) sentinelItem).token previous.token ∧
     (word_list.getD (i - 2) sentinelItem).tag ∈ PUNCTUATION then
    let blank := fun (w : WordListItem) =>
      { w with tag := "", is_word := false, is_proposition := false, rule_number := 23 }
    ((word_list.set (i - 4) (blank (word_list.getD (i - 4) sentinelItem))).set
        (i - 3) (blank (word_list.getD (i - 3) sentinelItem))).set
      (i - 2) (blank (word_list.getD (i - 2) sentinelItem))
  else word_list

/-- Rule 050: "not", words ending in "n't" and informal negation
contractions are propositions retagged `NOT`. -/
def rule050 (word_list : List WordListItem) (i : Nat) : List WordListItem :=
  let word := word_list.getD i sentinelItem
  if word.lowercase_token = "not" ∨ pyEndsWith word.lowercase_token "n't" ∨
     word.lowercase_token ∈ NT then
    word_list.set i
      { word with is_proposition := true, tag := "NOT", rule_number := 50 }
  else word_list

/-- Python `word in VERBS` where `word` is a `WordListItem` and the set
contains strings: Python decides membership by equality, and a
`WordListItem` object is never equal to a string, so the test is always
false. -/
def item_in_string_set (_word : WordListItem) (_s : List String) : Bool :=
  false

/-- Rule 054 as written in the source: `'that'/'this'` before a verb or
adverb becomes a pronoun.  The source tests `word in VERBS or
word in ADVERBS` on the item object itself (not on `word.tag`), which is
always false — see `item_in_string_set`. -/
def rule054 (word_list : List WordListItem) (i : Nat) : List WordListItem :=
  let word := word_list.getD i sentinelItem
  let previous := word_list.getD (i - 1) sentinelItem
  if (previous.lowercase_token = "that" ∨ previous.lowercase_token = "this") ∧
     (item_in_string_set word VERBS ∨ item_in_string_set word ADVERBS) then
    word_list.set (i - 1)
      { previous with tag := "PRP", rule_number := 54, is_proposition := false }
  else word_list

/-- `identify_words_and_adjust_tags(word_list, i, speech_mode)`. -/
def identify_words_and_adjust_tags (ratioFn : String → String → ℚ)
    (word_list : List WordListItem) (i : Nat) (speech_mode : Bool) :
    List WordListItem × Nat :=
  let wl2 := rule002 (rule001 word_list i) i
  let p3 := rule003 wl2 i
  let p4 := rule004 p3.1 p3.2
  let wl5 := if speech_mode then rule020 ratioFn p4.1 p4.2 else p4.1
  let wl6 := if speech_mode then rule021022 ratioFn wl5 p4.2 else wl5
  let wl7 := if speech_mode then rule023 ratioFn wl6 p4.2 else wl6
  (rule054 (rule050 wl7 p4.2) p4.2, p4.2)

/-- The recursion of the rule-101 forward scan, structurally on the
number `word_list.length - t` of remaining positions (so that concrete
runs evaluate inside the kernel). -/
def findTargetPositionAux (word_list : List WordListItem) :
    Nat → Nat → Nat
  | t, 0 => t
  | t, fuel + 1 =>
    if t < word_list.length then
      if (word_list.getD t sentinelItem).tag = SENTENCE_END ∨
         (word_list.getD t sentinelItem).tag ∈ VERBS then t
      else findTargetPositionAux word_list (t + 1) fuel
    else t

/-- The forward scan of rule 101: starting at `t`, advance to the first
position whose tag is the sentence end or a verb tag, stopping at the end
of the list (the `while target_position < len(word_list)` loop). -/
def findTargetPosition (word_list : List WordListItem) (t : Nat) : Nat :=
  findTargetPositionAux word_list t (word_list.length - t)

/-- `adjust_word_order(word_list, i, speech_mode)`: rule 101,
subject–auxiliary inversion.  The source imports the sentence-start helper
as `is_beginning_of_sentence`; the function defined in
`utils/word_search_utils.py` is `beginning_of_sentence` (lines 10–26),
which is what the embedding uses. -/
def adjust_word_order (word_list : List WordListItem) (i : Nat)
    (_speech_mode : Bool) : List WordListItem × Nat :=
  let word := word_list.getD i sentinelItem
  if word.lowercase_token ∈ AUXILIARY_VERBS then
    let sentence_start := beginning_of_sentence word_list i
    if sentence_start = i ∨
       (word_list.getD sentence_start sentinelItem).tag ∈ INTERROGATIVES then
      let target_position := findTargetPosition word_list (i + 1)
      if target_position > i + 1 then
        let wl2 := pyInsert word_list target_position
          (mkWordListItem word.token word.tag true true 101)
        -- mark the old item as to be ignored
        (wl2.set i
          { word with tag := "", is_proposition := false, is_word := false, token := word.token ++ "/moved" }, i)
      else (word_list, i)
    else (word_list, i)
  else (word_list, i)

/-- Rule 200: tags in `DEFAULT_PROPOSITIONS` are propositions. -/
def rule200 (word_list : List WordListItem) (i : Nat) : List WordListItem :=
  let word := word_list.getD i sentinelItem
  if word.tag ∈ DEFAULT_PROPOSITIONS then
    word_list.set i { word with is_proposition := true, rule_number := 200 }
  else word_list

/-- Rule 201: articles are not propositions. -/
def rule201 (word_list : List WordListItem) (i : Nat) : List WordListItem :=
  let word := word_list.getD i sentinelItem
  if word.lowercase_token ∈ ["the", "an", "a"] then
    word_list.set i { word with is_proposition := false, rule_number := 201 }
  else word_list

/-- Rule 203: the first word of a correlating conjunction pair is not a
proposition. -/
def rule203 (word_list : List WordListItem) (i : Nat) : List WordListItem :=
  let word := word_list.getD i sentinelItem
  if word.tag = "CC" ∧ word.lowercase_token ∉ CORRELATING_CONJUNCTIONS then
    match search_backwards_index word_list i
        (fun w => w.lowercase_token ∈ CORRELATING_CONJUNCTIONS) with
    | some j =>
      word_list.set j
        { word_list.getD j sentinelItem with is_proposition := false, rule_number := 203 }
    | none => word_list
  else word_list

/-- Rule 204: "and then" and "or else" are each a single proposition. -/
def rule204 (word_list : List WordListItem) (i : Nat) : List WordListItem :=
  let word := word_list.getD i sentinelItem
  let previous := word_list.getD (i - 1) sentinelItem
  if (previous.lowercase_token = "and" ∧ word.lowercase_token = "then") ∨
     (previous.lowercase_token = "or" ∧ word.lowercase_token = "else") then
    word_list.set i { word with is_proposition := false, rule_number := 204 }
  else word_list

/-- Rule 206: "to" as last word in the sentence is not a proposition. -/
def rule206 (word_list : List WordListItem) (i : Nat) : List WordListItem :=
  let word := word_list.getD i sentinelItem
  let previous := word_list.getD (i - 1) sentinelItem
  if word.tag = SENTENCE_END ∧ previous.tag = "TO" then
    word_list.set (i - 1)
      { previous with is_proposition := false, rule_number := 206 }
  else word_list

/-- Rule 207: a modal as last word in the sentence is a proposition. -/
def rule207 (word_list : List WordListItem) (i : Nat) : List WordListItem :=
  let word := word_list.getD i sentinelItem
  let previous := word_list.getD (i - 1) sentinelItem
  if word.tag = SENTENCE_END ∧ previous.tag = "MD" then
    word_list.set (i - 1)
      { previous with is_proposition := true, rule_number := 207 }
  else word_list

/-- The recursion of the rule-210 forward scan, structurally on the
number `stop - j` of remaining positions. -/
def cdNounAheadAux (word_list : List WordListItem) : Nat → Nat → Bool
  | _, 0 => false
  | j, fuel + 1 =>
    let next_word := word_list.getD j sentinelItem
    if next_word.tag = SENTENCE_END then false
    else if next_word.tag ∈ NOUNS then true
    else cdNounAheadAux word_list (j + 1) fuel

/-- The forward scan of rule 210: is there a noun within the next
`MAX_LOOKAHEAD` items, not crossing a sentence end?  (The
`for j in range(i + 1, min(len(word_list), i + MAX_LOOKAHEAD + 1))`
loop with its two `break`s.) -/
def cdNounAhead (word_list : List WordListItem) (j stop : Nat) : Bool :=
  cdNounAheadAux word_list j (stop - j)

/-- Rule 210: a cardinal number is a proposition only if a noun follows
within 5 words in the same sentence. -/
def rule210 (word_list : List WordListItem) (i : Nat) : List WordListItem :=
  let word := word_list.getD i sentinelItem
  if word.tag = "CD" then
    let wl2 := word_list.set i
      { word with is_proposition := false, rule_number := 210 }
    if cdNounAhead wl2 (i + 1) (min wl2.length (i + MAX_LOOKAHEAD + 1)) then
      wl2.set i { word with is_proposition := true, rule_number := 210 }
    else wl2
  else word_list

/-- Rule 211: "not ... unless"-type pairs: the earlier NOT is discounted. -/
def rule211 (word_list : List WordListItem) (i : Nat) : List WordListItem :=
  let word := word_list.getD i sentinelItem
  if word.lowercase_token ∈ NEGATIVE_POLARITY_2 then
    match search_backwards_index word_list i (fun w => w.tag = "NOT") with
    | some j =>
      word_list.set j
        { word_list.getD j sentinelItem with is_proposition := false, rule_number := 211 }
    | none => word_list
  else word_list

/-- Rule 212: "not ... any"-type pairs: the current word is discounted. -/
def rule212 (word_list : List WordListItem) (i : Nat) : List WordListItem :=
  let word := word_list.getD i sentinelItem
  if word.lowercase_token ∈ NEGATIVE_POLARITY_1 then
    match search_backwards_index word_list i (fun w => w.tag = "NOT") with
    | some _ =>
      word_list.set i
        { word with is_proposition := false, rule_number := 212 }
    | none => word_list
  else word_list

/-- Rule 213: "going to" immediately before a verb is not a proposition. -/
def rule213 (word_list : List WordListItem) (i : Nat) : List WordListItem :=
  let word := word_list.getD i sentinelItem
  let previous := word_list.getD (i - 1) sentinelItem
  let two_words_back := word_list.getD (i - 2) sentinelItem
  if word.tag ∈ VERBS ∧ previous.lowercase_token = "to" ∧
     two_words_back.lowercase_token = "going" then
    (word_list.set (i - 1)
        { previous with is_proposition := false, rule_number := 213 }).set
      (i - 2) { two_words_back with is_proposition := false, rule_number := 213 }
  else word_list

/-- Rule 214: "if ... then (word)": the "then" is not a proposition. -/
def rule214 (word_list : List WordListItem) (i : Nat) : List WordListItem :=
  let word := word_list.getD i sentinelItem
  let previous := word_list.getD (i - 1) sentinelItem
  if word.is_word ∧ previous.lowercase_token = "then" then
    match search_backwards_index word_list i (fun w => w.lowercase_token = "if") with
    | some _ =>
      word_list.set (i - 1)
        { previous with is_proposition := false, rule_number := 214 }
    | none => word_list
  else word_list

/-- Rule 225: "each other" is a pronoun. -/
def rule225 (word_list : List WordListItem) (i : Nat) : List WordListItem :=
  let word := word_list.getD i sentinelItem
  let previous := word_list.getD (i - 1) sentinelItem
  if word.lowercase_token = "other" ∧ previous.lowercase_token = "each" then
    (word_list.set i
        { word with tag := "PRP", is_proposition := false, rule_number := 225 }).set
      (i - 1)
      { previous with tag := "PRP", is_proposition := false, rule_number := 225 }
  else word_list

/-- Rule 230: "how come" and "how many" are each one proposition. -/
def rule230 (word_list : List WordListItem) (i : Nat) : List WordListItem :=
  let word := word_list.getD i sentinelItem
  let previous := word_list.getD (i - 1) sentinelItem
  if (word.lowercase_token = "come" ∨ word.lowercase_token = "many") ∧
     previous.lowercase_token = "how" then
    word_list.set i
      { word with is_proposition := false, tag := previous.tag, rule_number := 230 }
  else word_list

/-- `identify_potential_propositions(word_list, i, speech_mode)`. -/
def identify_potential_propositions (word_list : List WordListItem) (i : Nat)
    (_speech_mode : Bool) : List WordListItem × Nat :=
  let wl := rule200 word_list i
  let wl := rule201 wl i
  let wl := rule203 wl i
  let wl := rule204 wl i
  let wl := rule206 wl i
  let wl := rule207 wl i
  let wl := rule210 wl i
  let wl := rule211 wl i
  let wl := rule212 wl i
  let wl := rule213 wl i
  let wl := rule214 wl i
  let wl := rule225 wl i
  let wl := rule230 wl i
  (wl, i)

/-- Rule 301: a linking verb before an adjective or adverb is not a
proposition. -/
def rule301 (word_list : List WordListItem) (i : Nat) : List WordListItem :=
  let word := word_list.getD i sentinelItem
  let previous := word_list.getD (i - 1) sentinelItem
  if (word.tag ∈ ADJECTIVES ∨ word.tag ∈ ADVERBS) ∧
     previous.lowercase_token ∈ LINKING_VERBS then
    word_list.set (i - 1)
      { previous with is_proposition := false, rule_number := 301 }
  else word_list

/-- Rule 302: "be" before a preposition is not a proposition. -/
def rule302 (word_list : List WordListItem) (i : Nat) : List WordListItem :=
  let word := word_list.getD i sentinelItem
  let previous := word_list.getD (i - 1) sentinelItem
  if word.tag = "IN" ∧ previous.lowercase_token ∈ BE then
    word_list.set (i - 1)
      { previous with is_proposition := false, rule_number := 302 }
  else word_list

/-- Rule 310: linking verb + adverb + determiner counts as two
propositions. -/
def rule310 (word_list : List WordListItem) (i : Nat) : List WordListItem :=
  let word := word_list.getD i sentinelItem
  let previous := word_list.getD (i - 1) sentinelItem
  let two_words_back := word_list.getD (i - 2) sentinelItem
  if word.tag ∈ ["DT", "PDT"] ∧ previous.tag ∈ ADVERBS ∧
     two_words_back.lowercase_token ∈ LINKING_VERBS then
    (word_list.set (i - 1)
        { previous with is_proposition := true, rule_number := 310 }).set
      (i - 2) { two_words_back with is_proposition := true, rule_number := 310 }
  else word_list

/-- Rule 311: an adjective after a causative linking verb is not a new
proposition. -/
def rule311 (word_list : List WordListItem) (i : Nat) : List WordListItem :=
  let word := word_list.getD i sentinelItem
  if word.tag ∈ ADJECTIVES then
    match search_backwards_index word_list i
        (fun w => w.lowercase_token ∈ CAUSATIVE_LINKING_VERBS) with
    | some _ =>
      word_list.set i
        { word with is_proposition := false, rule_number := 311 }
    | none => word_list
  else word_list

/-- `handle_linking_verbs(word_list, i, speech_mode)`. -/
def handle_linking_verbs (word_list : List WordListItem) (i : Nat)
    (_speech_mode : Bool) : List WordListItem × Nat :=
  let wl := rule301 word_list i
  let wl := rule302 wl i
  let wl := rule310 wl i
  let wl := rule311 wl i
  (wl, i)

/-- Rule 401: auxiliary + "not" is one proposition. -/
def rule401 (word_list : List WordListItem) (i : Nat) : List WordListItem :=
  let word := word_list.getD i sentinelItem
  let previous := word_list.getD (i - 1) sentinelItem
  if word.lowercase_token = "not" ∧
     previous.lowercase_token ∈ AUXILIARY_VERBS then
    word_list.set (i - 1)
      { previous with is_proposition := false, rule_number := 401 }
  else word_list

/-- Rule 402: auxiliary + verb is one proposition. -/
def rule402 (word_list : List WordListItem) (i : Nat) : List WordListItem :=
  let word := word_list.getD i sentinelItem
  let previous := word_list.getD (i - 1) sentinelItem
  if word.tag ∈ VERBS ∧ previous.lowercase_token ∈ AUXILIARY_VERBS then
    word_list.set (i - 1)
      { previous with is_proposition := false, rule_number := 402 }
  else word_list

/-- Rule 405: auxiliary + NOT/adverb + verb: the auxiliary alone is
discounted. -/
def rule405 (word_list : List WordListItem) (i : Nat) : List WordListItem :=
  let word := word_list.getD i sentinelItem
  let previous := word_list.getD (i - 1) sentinelItem
  let two_words_back := word_list.getD (i - 2) sentinelItem
  if word.tag ∈ VERBS ∧ (previous.tag = "NOT" ∨ previous.tag ∈ ADVERBS) ∧
     two_words_back.lowercase_token ∈ AUXILIARY_VERBS then
    word_list.set (i - 2)
      { two_words_back with is_proposition := false, rule_number := 405 }
  else word_list

/-- `handle_auxiliary_verbs(word_list, i, speech_mode)`. -/
def handle_auxiliary_verbs (word_list : List WordListItem) (i : Nat)
    (_speech_mode : Bool) : List WordListItem × Nat :=
  let wl := rule401 word_list i
  let wl := rule402 wl i
  let wl := rule405 wl i
  (wl, i)

/-- Rule 510: "TO VB" is one proposition. -/
def rule510 (word_list : List WordListItem) (i : Nat) : List WordListItem :=
  let word := word_list.getD i sentinelItem
  let previous := word_list.getD (i - 1) sentinelItem
  if word.tag = "VB" ∧ previous.tag = "TO" then
    word_list.set (i - 1)
      { previous with is_proposition := false, rule_number := 510 }
  else word_list

/-- Rule 511: in "for ... TO VB", the "for" is not a proposition. -/
def rule511 (word_list : List WordListItem) (i : Nat) : List WordListItem :=
  let word := word_list.getD i sentinelItem
  let previous := word_list.getD (i - 1) sentinelItem
  if word.tag = "VB" ∧ previous.tag = "TO" then
    match search_backwards_index word_list i
        (fun w => w.lowercase_token = "for") with
    | some j =>
      word_list.set j
        { word_list.getD j sentinelItem with is_proposition := false, rule_number := 511 }
    | none => word_list
  else word_list

/-- `handle_constructions_involving_to(word_list, i, speech_mode)`. -/
def handle_constructions_involving_to (word_list : List WordListItem) (i : Nat)
    (_speech_mode : Bool) : List WordListItem × Nat :=
  let wl := rule510 word_list i
  let wl := rule511 wl i
  (wl, i)

/-- Rule 610 (speech mode): a sentence consisting entirely of probable
filler words is propositionless. -/
def rule610 (word_list : List WordListItem) (i : Nat) : List WordListItem :=
  let word := word_list.getD i sentinelItem
  if word.tag = SENTENCE_END then
    let bos := beginning_of_sentence word_list i
    let idxs := List.range' bos (i - bos)
    let k := idxs.countP (fun j =>
      (word_list.getD j sentinelItem).tag ≠ "UH" ∧
      (word_list.getD j sentinelItem).lowercase_token ∉ FILLER)
    if k = 0 then
      idxs.foldl (fun wl j =>
        wl.set j
          { wl.getD j sentinelItem with tag := "", is_proposition := false, rule_number := 610 }) word_list
    else word_list
  else word_list

/-- Rule 632 (speech mode): "like" not after a form of "be" is a filler. -/
def rule632 (word_list : List WordListItem) (i : Nat) : List WordListItem :=
  let word := word_list.getD i sentinelItem
  let previous := word_list.getD (i - 1) sentinelItem
  if word.lowercase_token = "like" ∧ previous.lowercase_token ∉ BE then
    word_list.set i
      { word with tag := "", is_proposition := false, rule_number := 632 }
  else word_list

/-- Rule 634 (speech mode): "you know" is a single filler word; the
successor slot is deleted and the cursor steps back. -/
def rule634 (word_list : List WordListItem) (i : Nat) :
    List WordListItem × Nat :=
  let word := word_list.getD i sentinelItem
  let previous := word_list.getD (i - 1) sentinelItem
  if i > 0 ∧ previous.lowercase_token = "you" ∧
     word.lowercase_token = "know" then
    -- `i -= 1` followed by `del word_list[i + 1]` (the old position `i`),
    -- then the merged item's data is reset
    let wl2 := pyDelete word_list i
    (wl2.set (i - 1)
      { previous with token := "you_know", tag := "", is_proposition := false, is_word := true, rule_number := 634 }, i - 1)
  else (word_list, i)

/-- `handle_fillers(word_list, i, speech_mode)`: rule group 600 (only in
speech mode). -/
def handle_fillers (word_list : List WordListItem) (i : Nat)
    (speech_mode : Bool) : List WordListItem × Nat :=
  if ¬speech_mode then (word_list, i)
  else
    let wl := rule610 word_list i
    let wl := rule632 wl i
    rule634 wl i

/-- One application of the seven rule functions, in the order of the
`rule_functions` list in `apply_idea_counting_rules`. -/
def loopBody (ratioFn : String → String → ℚ) (word_list : List WordListItem)
    (i : Nat) (speech_mode : Bool) : List WordListItem × Nat :=
  let p1 := identify_words_and_adjust_tags ratioFn word_list i speech_mode
  let p2 := adjust_word_order p1.1 p1.2 speech_mode
  let p3 := identify_potential_propositions p2.1 p2.2 speech_mode
  let p4 := handle_linking_verbs p3.1 p3.2 speech_mode
  let p5 := handle_auxiliary_verbs p4.1 p4.2 speech_mode
  let p6 := handle_constructions_involving_to p5.1 p5.2 speech_mode
  handle_fillers p6.1 p6.2 speech_mode

/-- The `while i < len(word_list)` loop of `apply_idea_counting_rules`,
with explicit fuel (`none` = the fuel ran out before the loop exited). -/
def loopAux (ratioFn : String → String → ℚ) (speech_mode : Bool) :
    Nat → List WordListItem → Nat → Option (List WordListItem)
  | 0, _, _ => none
  | fuel + 1, word_list, i =>
    if i < word_list.length then
      if (word_list.getD i sentinelItem).token = "" then
        loopAux ratioFn speech_mode fuel word_list (i + 1)
      else
        let (wl2, i2) := loopBody ratioFn word_list i speech_mode
        loopAux ratioFn speech_mode fuel wl2 (i2 + 1)
    else some word_list

/-- `apply_idea_counting_rules(word_list, speech_mode)` with fuel. -/
def apply_idea_counting_rules (ratioFn : String → String → ℚ) (fuel : Nat)
    (word_list : List WordListItem) (speech_mode : Bool) :
    Option (List WordListItem) :=
  loopAux ratioFn speech_mode fuel word_list 0

/-! ## Entry point: `pycpidr/idea_density_rater.py` and the type check of
`pycpidr/tagger.py` -/

/-- `count_words_and_propositions(word_list)`: the two generator-sum
counts. -/
def count_words_and_propositions (items : List WordListItem) : Nat × Nat :=
  ((items.map (fun word => if word.is_word then 1 else 0)).sum,
   (items.map (fun word => if word.is_proposition then 1 else 0)).sum)

/-- The dynamically-typed `text` argument of `rate_text`: Python `None`, a
string, or any other (non-string) object. -/
inductive PyValue where
  | none : PyValue
  | str : String → PyValue
  | other : Nat → PyValue
deriving Repr, DecidableEq

/-- `tag_text(text)` from `pycpidr/tagger.py`: raises
`TypeError("Input text must be a string.")` for any non-string argument,
otherwise defers to the external spaCy pipeline (`tagger`, which may
itself raise, e.g. `OSError` when the model is missing). -/
def tag_text (tagger : String → Except String (List (String × String))) :
    PyValue → Except String (List (String × String))
  | .str s => tagger s
  | _ => .error "Input text must be a string."

/-- `rate_text(text, speech_mode)`.  The outer `Option` is the fuel of the
rule-engine loop (`none` = the Python call never returns); the `Except`
layer is the caller-visible exception channel — note that the source wraps
the whole body in `try/except Exception`, so the error constructor is
never produced: every exception is caught, logged and degraded to the
zero result with `word_list = None` (modelled as the inner
`Option.none`). -/
def rate_text (tagger : String → Except String (List (String × String)))
    (ratioFn : String → String → ℚ) (fuel : Nat) (text : PyValue)
    (speech_mode : Bool) :
    Option (Except String (Nat × Nat × ℚ × Option (List WordListItem))) :=
  match text with
  | PyValue.none => some (.ok (0, 0, 0, some (wordListItems [])))
  | _ =>
    match tag_text tagger text with
    | .error _ => some (.ok (0, 0, 0, Option.none))
    | .ok tagged_text =>
      match apply_idea_counting_rules ratioFn fuel (wordListItems tagged_text)
          speech_mode with
      | Option.none => Option.none
      | some word_list =>
        let word_count := (count_words_and_propositions word_list).1
        let proposition_count := (count_words_and_propositions word_list).2
        -- `proposition_count / word_count`, as an exact rational
        -- (`mkRat pc wc = pc / wc`, lemma `Rat.mkRat_eq_div`)
        some (.ok (word_count, proposition_count,
          if word_count > 0 then mkRat proposition_count word_count
          else 0, some word_list))

/-- A pre-assembled instance for the result type of `rate_text`, so that
concrete runs can be checked with `decide` without a deep instance
search. -/
instance : DecidableEq (Except String (Nat × Nat × ℚ × Option (List WordListItem))) :=
  exceptDecEq

/-! ## List access lemmas for the mutation primitives -/

lemma getD_set_self {l : List α} {n : Nat} {x d : α} (h : n < l.length) :
    (l.set n x).getD n d = x := by
  simp [List.getD_eq_getElem?_getD, List.getElem?_set, h]

lemma getD_set_ne {l : List α} {m n : Nat} {x d : α} (h : n ≠ m) :
    (l.set n x).getD m d = l.getD m d := by
  simp [List.getD_eq_getElem?_getD, List.getElem?_set, h]

lemma take_set_of_le {l : List α} {m n : Nat} {x : α} (h : m ≤ n) :
    (l.set n x).take m = l.take m := by
  apply List.ext_getElem?
  intro k
  rw [List.getElem?_take, List.getElem?_take]
  split
  · have : ¬(n = k) := by omega
    rw [List.getElem?_set, if_neg this]
  · rfl

lemma length_pyInsert {l : List α} {n : Nat} {a : α} (h : n ≤ l.length) :
    (pyInsert l n a).length = l.length + 1 := by
  simp [pyInsert]
  omega

lemma pyDelete_of_length_le {l : List α} {n : Nat} (h : l.length ≤ n) :
    pyDelete l n = l := by
  have h1 : List.take n l = l := List.take_of_length_le h
  have h2 : List.drop (n + 1) l = [] := List.drop_eq_nil_of_le (by omega)
  simp [pyDelete, h1, h2]

lemma length_pyDelete {l : List α} {n : Nat} (h : n < l.length) :
    (pyDelete l n).length = l.length - 1 := by
  simp [pyDelete]
  omega

lemma getD_pyInsert_lt {l : List α} {m n : Nat} {a d : α} (h : m < n)
    (hn : n ≤ l.length) : (pyInsert l n a).getD m d = l.getD m d := by
  have hlen : (l.take n).length = n := by simp; omega
  rw [List.getD_eq_getElem?_getD, List.getD_eq_getElem?_getD, pyInsert,
    List.getElem?_append, hlen, if_pos h, List.getElem?_take, if_pos h]

lemma getD_pyInsert_self {l : List α} {n : Nat} {a d : α} (h : n ≤ l.length) :
    (pyInsert l n a).getD n d = a := by
  have hlen : (l.take n).length = n := by simp; omega
  rw [List.getD_eq_getElem?_getD, pyInsert, List.getElem?_append, hlen,
    if_neg (by omega), Nat.sub_self, List.getElem?_cons_zero, Option.getD_some]

lemma getD_pyDelete_lt {l : List α} {m n : Nat} {d : α} (h : m < n) :
    (pyDelete l n).getD m d = l.getD m d := by
  by_cases hl : l.length ≤ n
  · rw [pyDelete_of_length_le hl]
  · have hlen : (l.take n).length = n := by simp; omega
    rw [List.getD_eq_getElem?_getD, List.getD_eq_getElem?_getD, pyDelete,
      List.getElem?_append, hlen, if_pos h, List.getElem?_take, if_pos h]

lemma take_pyInsert_of_le {l : List α} {m n : Nat} {a : α} (h : m ≤ n)
    (hn : n ≤ l.length) : (pyInsert l n a).take m = l.take m := by
  apply List.ext_getElem?
  intro k
  rw [List.getElem?_take, List.getElem?_take]
  split
  · next hk =>
    have hlen : (l.take n).length = n := by simp; omega
    rw [pyInsert, List.getElem?_append, hlen, if_pos (by omega),
      List.getElem?_take, if_pos (by omega)]
  · rfl

lemma take_pyDelete_of_le {l : List α} {m n : Nat} (h : m ≤ n) :
    (pyDelete l n).take m = l.take m := by
  by_cases hl : l.length ≤ n
  · rw [pyDelete_of_length_le hl]
  · apply List.ext_getElem?
    intro k
    rw [List.getElem?_take, List.getElem?_take]
    split
    · next hk =>
      have hlen : (l.take n).length = n := by simp; omega
      rw [pyDelete, List.getElem?_append, hlen, if_pos (by omega),
        List.getElem?_take, if_pos (by omega)]
    · rfl

/-! ## The sentinel prefix invariant -/

/-- The first ten slots are exactly the sentinel items created by
`WordList.__init__`. -/
def sentinelPrefix (word_list : List WordListItem) : Prop :=
  word_list.take 10 = List.replicate 10 sentinelItem

lemma sentinelPrefix_wordListItems (tagged : List (String × String)) :
    sentinelPrefix (wordListItems tagged) := by
  simp [sentinelPrefix, wordListItems, DEFAULT_ITEM_COUNT,
    List.take_append_of_le_length]

lemma sentinelPrefix.length_ge {wl : List WordListItem}
    (h : sentinelPrefix wl) : 10 ≤ wl.length := by
  have := congrArg List.length h
  simp at this
  omega

lemma sentinelPrefix.getD_eq {wl : List WordListItem} (h : sentinelPrefix wl)
    {k : Nat} (hk : k < 10) : wl.getD k sentinelItem = sentinelItem := by
  have hlen := h.length_ge
  have h1 : wl.getD k sentinelItem = (wl.take 10).getD k sentinelItem := by
    simp [List.getD_eq_getElem?_getD, List.getElem?_take, hk]
  rw [h1, h]
  interval_cases k <;> rfl

lemma sentinelItem_token : sentinelItem.token = "" := rfl
lemma sentinelItem_tag : sentinelItem.tag = "" := rfl
lemma sentinelItem_lowercase : sentinelItem.lowercase_token = "" := rfl

lemma sentinelPrefix.ge10_of_token_ne {wl : List WordListItem}
    (h : sentinelPrefix wl) {k : Nat}
    (hne : (wl.getD k sentinelItem).token ≠ "") : 10 ≤ k := by
  by_contra hk
  exact hne (by rw [h.getD_eq (by omega)]; rfl)

lemma sentinelPrefix.ge10_of_tag_ne {wl : List WordListItem}
    (h : sentinelPrefix wl) {k : Nat}
    (hne : (wl.getD k sentinelItem).tag ≠ "") : 10 ≤ k := by
  by_contra hk
  exact hne (by rw [h.getD_eq (by omega)]; rfl)

lemma sentinelPrefix.ge10_of_lowercase_ne {wl : List WordListItem}
    (h : sentinelPrefix wl) {k : Nat}
    (hne : (wl.getD k sentinelItem).lowercase_token ≠ "") : 10 ≤ k := by
  by_contra hk
  exact hne (by rw [h.getD_eq (by omega)]; rfl)

lemma sentinelPrefix.set {wl : List WordListItem} (h : sentinelPrefix wl)
    {n : Nat} (hn : 10 ≤ n) (x : WordListItem) :
    sentinelPrefix (wl.set n x) := by
  unfold sentinelPrefix
  rw [take_set_of_le hn]
  exact h

lemma sentinelPrefix.pyDelete {wl : List WordListItem} (h : sentinelPrefix wl)
    {n : Nat} (hn : 10 ≤ n) : sentinelPrefix (pyDelete wl n) := by
  unfold sentinelPrefix
  rw [take_pyDelete_of_le hn]
  exact h

lemma sentinelPrefix.pyInsert {wl : List WordListItem} (h : sentinelPrefix wl)
    {n : Nat} (hn : 10 ≤ n) (hn2 : n ≤ wl.length) (x : WordListItem) :
    sentinelPrefix (pyInsert wl n x) := by
  unfold sentinelPrefix
  rw [take_pyInsert_of_le hn hn2]
  exact h

/-! ## Guard facts used by the preservation proofs -/

lemma ne_empty_of_mem {x : String} {s : List String} (hm : x ∈ s)
    (hs : "" ∉ s) : x ≠ "" :=
  fun he => hs (he ▸ hm)

lemma is_repetition_empty_left (r : String → String → ℚ) (s : String) :
    is_repetition r "" s = false := by
  simp [is_repetition]

lemma searchLoop_found_tag {wl : List WordListItem}
    {cond : WordListItem → Bool} :
    ∀ {idxs : List Nat} {j : Nat}, searchLoop wl cond idxs = some j →
      (wl.getD j sentinelItem).tag ≠ "" := by
  intro idxs
  induction idxs with
  | nil => intro j h; simp [searchLoop] at h
  | cons a rest ih =>
    intro j h
    simp only [searchLoop] at h
    split at h
    · exact absurd h (by simp)
    · split at h
      · next hc =>
        cases h
        next hne => intro he; exact hne (Or.inr he)
      · exact ih h

lemma search_backwards_index_ge10 {wl : List WordListItem} {i j : Nat}
    {cond : WordListItem → Bool} (hsp : sentinelPrefix wl)
    (h : search_backwards_index wl i cond = some j) : 10 ≤ j :=
  hsp.ge10_of_tag_ne (searchLoop_found_tag h)

lemma bosLoop_ge {wl : List WordListItem} (hsp : sentinelPrefix wl) :
    ∀ {j : Nat}, 9 ≤ j → 9 ≤ bosLoop wl j := by
  intro j
  induction j with
  | zero => omega
  | succ j ih =>
    intro hj
    by_cases hj9 : 9 ≤ j
    · simp only [bosLoop]
      split
      · exact ih hj9
      · omega
    · -- j + 1 = 9: the sentinel at index 9 has an empty tag
      have hj9eq : j + 1 = 9 := by omega
      have h9 : (wl.getD (j + 1) sentinelItem).tag = "" := by
        rw [hj9eq, hsp.getD_eq (by omega)]; rfl
      simp only [bosLoop]
      rw [if_neg (fun hc => absurd h9 hc.2)]
      omega

lemma beginning_of_sentence_ge10 {wl : List WordListItem} {i : Nat}
    (hsp : sentinelPrefix wl) (hi : 10 ≤ i) :
    10 ≤ beginning_of_sentence wl i := by
  unfold beginning_of_sentence
  rw [if_neg (by omega)]
  have := @bosLoop_ge wl hsp (i - 1) (by omega)
  omega

lemma findTargetPositionAux_le {wl : List WordListItem} :
    ∀ {fuel t : Nat}, t ≤ wl.length →
      findTargetPositionAux wl t fuel ≤ wl.length := by
  intro fuel
  induction fuel with
  | zero => intro t h; exact h
  | succ fuel ih =>
    intro t h
    simp only [findTargetPositionAux]
    split
    · split
      · omega
      · exact ih (by omega)
    · exact h

lemma findTargetPosition_le {wl : List WordListItem} {t : Nat}
    (h : t ≤ wl.length) : findTargetPosition wl t ≤ wl.length :=
  findTargetPositionAux_le h

/-! ## Sentinel preservation, rule by rule -/

lemma rule001_sp {wl : List WordListItem} {i : Nat} (h : sentinelPrefix wl)
    (hi : 10 ≤ i) : sentinelPrefix (rule001 wl i) := by
  simp only [rule001]
  split
  · exact h.set hi _
  · exact h

lemma rule002_sp {wl : List WordListItem} {i : Nat} (h : sentinelPrefix wl)
    (hi : 10 ≤ i) : sentinelPrefix (rule002 wl i) := by
  simp only [rule002]
  split
  · exact h.set hi _
  · exact h

lemma rule003_sp {wl : List WordListItem} {i : Nat} (h : sentinelPrefix wl)
    (hi : 10 ≤ i) :
    sentinelPrefix (rule003 wl i).1 ∧ 10 ≤ (rule003 wl i).2 := by
  simp only [rule003]
  split
  · next hg =>
    have h1 : 10 ≤ i - 1 :=
      h.ge10_of_tag_ne (hg.2 ▸ (by decide : ("CD" : String) ≠ ""))
    exact ⟨(h.set h1 _).pyDelete (by omega), h1⟩
  · exact ⟨h, hi⟩

lemma rule004_sp {wl : List WordListItem} {i : Nat} (h : sentinelPrefix wl)
    (hi : 10 ≤ i) :
    sentinelPrefix (rule004 wl i).1 ∧ 10 ≤ (rule004 wl i).2 := by
  simp only [rule004]
  split
  · next hg =>
    have h2 : 10 ≤ i - 2 :=
      h.ge10_of_tag_ne (hg.2.2.2 ▸ (by decide : ("CD" : String) ≠ ""))
    exact ⟨((h.set h2 _).pyDelete (by omega)).pyDelete (by omega), h2⟩
  · exact ⟨h, hi⟩

lemma rule020_sp {r : String → String → ℚ} {wl : List WordListItem} {i : Nat}
    (h : sentinelPrefix wl) : sentinelPrefix (rule020 r wl i) := by
  simp only [rule020]
  split
  · next hg =>
    have hne : (wl.getD (i - 1) sentinelItem).token ≠ "" := by
      intro he
      rw [he, is_repetition_empty_left] at hg
      exact absurd hg (by simp)
    exact h.set (h.ge10_of_token_ne hne) _
  · exact h

lemma rule021022_sp {r : String → String → ℚ} {wl : List WordListItem}
    {i : Nat} (h : sentinelPrefix wl) : sentinelPrefix (rule021022 r wl i) := by
  simp only [rule021022]
  split
  · next hg =>
    have hne2 : (wl.getD (i - 2) sentinelItem).token ≠ "" := by
      intro he
      rw [he, is_repetition_empty_left] at hg
      exact absurd hg.1 (by simp)
    have h2le := h.ge10_of_token_ne hne2
    split
    · next hp =>
      exact (h.set h2le _).set
        (h.ge10_of_tag_ne (ne_empty_of_mem hp (by decide))) _
    · exact h.set h2le _
  · exact h

lemma rule023_sp {r : String → String → ℚ} {wl : List WordListItem} {i : Nat}
    (h : sentinelPrefix wl) : sentinelPrefix (rule023 r wl i) := by
  simp only [rule023]
  split
  · next hg =>
    have hne4 : (wl.getD (i - 4) sentinelItem).token ≠ "" := by
      intro he
      rw [he, is_repetition_empty_left] at hg
      exact absurd hg.2.1 (by simp)
    have hne3 : (wl.getD (i - 3) sentinelItem).token ≠ "" := by
      intro he
      rw [he, is_repetition_empty_left] at hg
      exact absurd hg.1 (by simp)
    have hne2 : (wl.getD (i - 2) sentinelItem).tag ≠ "" :=
      ne_empty_of_mem hg.2.2 (by decide)
    have h4 := h.ge10_of_token_ne hne4
    have h3 := h.ge10_of_token_ne hne3
    have h2 := h.ge10_of_tag_ne hne2
    exact ((h.set h4 _).set h3 _).set h2 _
  · exact h

lemma rule050_sp {wl : List WordListItem} {i : Nat} (h : sentinelPrefix wl)
    (hi : 10 ≤ i) : sentinelPrefix (rule050 wl i) := by
  simp only [rule050]
  split
  · exact h.set hi _
  · exact h

lemma rule054_eq (wl : List WordListItem) (i : Nat) : rule054 wl i = wl := by
  simp [rule054, item_in_string_set]

lemma identify_words_sp {r : String → String → ℚ} {wl : List WordListItem}
    {i : Nat} {m : Bool} (h : sentinelPrefix wl) (hi : 10 ≤ i) :
    sentinelPrefix (identify_words_and_adjust_tags r wl i m).1 ∧
      10 ≤ (identify_words_and_adjust_tags r wl i m).2 := by
  have h1 := rule001_sp h hi
  have h2 := rule002_sp h1 hi
  rcases hr3 : rule003 (rule002 (rule001 wl i) i) i with ⟨wl3, i3⟩
  have h3 := rule003_sp h2 hi
  rw [hr3] at h3
  rcases hr4 : rule004 wl3 i3 with ⟨wl4, i4⟩
  have h4 := rule004_sp h3.1 h3.2
  rw [hr4] at h4
  simp only [identify_words_and_adjust_tags, hr3, hr4]
  rw [rule054_eq]
  refine ⟨rule050_sp ?_ h4.2, h4.2⟩
  cases m with
  | false => simpa using h4.1
  | true =>
    simp only [if_true]
    exact rule023_sp (rule021022_sp (rule020_sp h4.1))

lemma findTargetPosition_of_length_le {wl : List WordListItem} {t : Nat}
    (h : wl.length ≤ t) : findTargetPosition wl t = t := by
  unfold findTargetPosition
  rw [Nat.sub_eq_zero_of_le h]
  rfl

lemma adjust_word_order_sp {wl : List WordListItem} {i : Nat} {m : Bool}
    (h : sentinelPrefix wl) (hi : 10 ≤ i) :
    sentinelPrefix (adjust_word_order wl i m).1 ∧
      10 ≤ (adjust_word_order wl i m).2 := by
  simp only [adjust_word_order]
  split
  · split
    · split
      · next htgt =>
        have hlen : i + 1 ≤ wl.length := by
          by_contra hc
          rw [findTargetPosition_of_length_le (by omega)] at htgt
          omega
        have htle : findTargetPosition wl (i + 1) ≤ wl.length :=
          findTargetPosition_le hlen
        exact ⟨(h.pyInsert (by omega) htle _).set hi _, hi⟩
      · exact ⟨h, hi⟩
    · exact ⟨h, hi⟩
  · exact ⟨h, hi⟩

lemma rule200_sp {wl : List WordListItem} {i : Nat} (h : sentinelPrefix wl)
    (hi : 10 ≤ i) : sentinelPrefix (rule200 wl i) := by
  simp only [rule200]
  split
  · exact h.set hi _
  · exact h

lemma rule201_sp {wl : List WordListItem} {i : Nat} (h : sentinelPrefix wl)
    (hi : 10 ≤ i) : sentinelPrefix (rule201 wl i) := by
  simp only [rule201]
  split
  · exact h.set hi _
  · exact h

lemma rule203_sp {wl : List WordListItem} {i : Nat} (h : sentinelPrefix wl) :
    sentinelPrefix (rule203 wl i) := by
  simp only [rule203]
  split
  · split
    · next j heq => exact h.set (search_backwards_index_ge10 h heq) _
    · exact h
  · exact h

lemma rule204_sp {wl : List WordListItem} {i : Nat} (h : sentinelPrefix wl)
    (hi : 10 ≤ i) : sentinelPrefix (rule204 wl i) := by
  simp only [rule204]
  split
  · exact h.set hi _
  · exact h

lemma rule206_sp {wl : List WordListItem} {i : Nat} (h : sentinelPrefix wl) :
    sentinelPrefix (rule206 wl i) := by
  simp only [rule206]
  split
  · next hg => exact h.set (h.ge10_of_tag_ne (by rw [hg.2]; decide)) _
  · exact h

lemma rule207_sp {wl : List WordListItem} {i : Nat} (h : sentinelPrefix wl) :
    sentinelPrefix (rule207 wl i) := by
  simp only [rule207]
  split
  · next hg => exact h.set (h.ge10_of_tag_ne (by rw [hg.2]; decide)) _
  · exact h

lemma rule210_sp {wl : List WordListItem} {i : Nat} (h : sentinelPrefix wl)
    (hi : 10 ≤ i) : sentinelPrefix (rule210 wl i) := by
  simp only [rule210]
  split
  · split
    · exact (h.set hi _).set hi _
    · exact h.set hi _
  · exact h

lemma rule211_sp {wl : List WordListItem} {i : Nat} (h : sentinelPrefix wl) :
    sentinelPrefix (rule211 wl i) := by
  simp only [rule211]
  split
  · split
    · next j heq => exact h.set (search_backwards_index_ge10 h heq) _
    · exact h
  · exact h

lemma rule212_sp {wl : List WordListItem} {i : Nat} (h : sentinelPrefix wl)
    (hi : 10 ≤ i) : sentinelPrefix (rule212 wl i) := by
  simp only [rule212]
  split
  · split
    · exact h.set hi _
    · exact h
  · exact h

lemma rule213_sp {wl : List WordListItem} {i : Nat} (h : sentinelPrefix wl) :
    sentinelPrefix (rule213 wl i) := by
  simp only [rule213]
  split
  · next hg =>
    exact ((h.set (h.ge10_of_lowercase_ne (by rw [hg.2.1]; decide)) _).set
      (h.ge10_of_lowercase_ne (by rw [hg.2.2]; decide)) _)
  · exact h

lemma rule214_sp {wl : List WordListItem} {i : Nat} (h : sentinelPrefix wl) :
    sentinelPrefix (rule214 wl i) := by
  simp only [rule214]
  split
  · next hg =>
    split
    · exact h.set (h.ge10_of_lowercase_ne (by rw [hg.2]; decide)) _
    · exact h
  · exact h

lemma rule225_sp {wl : List WordListItem} {i : Nat} (h : sentinelPrefix wl)
    (hi : 10 ≤ i) : sentinelPrefix (rule225 wl i) := by
  simp only [rule225]
  split
  · next hg =>
    exact (h.set hi _).set
      (h.ge10_of_lowercase_ne (by rw [hg.2]; decide)) _
  · exact h

lemma rule230_sp {wl : List WordListItem} {i : Nat} (h : sentinelPrefix wl)
    (hi : 10 ≤ i) : sentinelPrefix (rule230 wl i) := by
  simp only [rule230]
  split
  · exact h.set hi _
  · exact h

lemma identify_potential_sp {wl : List WordListItem} {i : Nat} {m : Bool}
    (h : sentinelPrefix wl) (hi : 10 ≤ i) :
    sentinelPrefix (identify_potential_propositions wl i m).1 ∧
      10 ≤ (identify_potential_propositions wl i m).2 := by
  simp only [identify_potential_propositions]
  have a1 := rule200_sp h hi
  have a2 := rule201_sp a1 hi
  have a3 := @rule203_sp (rule201 (rule200 wl i) i) i a2
  have a4 := rule204_sp a3 hi
  have a5 := @rule206_sp _ i a4
  have a6 := @rule207_sp _ i a5
  have a7 := rule210_sp a6 hi
  have a8 := @rule211_sp _ i a7
  have a9 := rule212_sp a8 hi
  have a10 := @rule213_sp _ i a9
  have a11 := @rule214_sp _ i a10
  have a12 := rule225_sp a11 hi
  exact ⟨rule230_sp a12 hi, hi⟩

lemma rule301_sp {wl : List WordListItem} {i : Nat} (h : sentinelPrefix wl) :
    sentinelPrefix (rule301 wl i) := by
  simp only [rule301]
  split
  · next hg =>
    exact h.set (h.ge10_of_lowercase_ne (ne_empty_of_mem hg.2 (by decide))) _
  · exact h

lemma rule302_sp {wl : List WordListItem} {i : Nat} (h : sentinelPrefix wl) :
    sentinelPrefix (rule302 wl i) := by
  simp only [rule302]
  split
  · next hg =>
    exact h.set (h.ge10_of_lowercase_ne (ne_empty_of_mem hg.2 (by decide))) _
  · exact h

lemma rule310_sp {wl : List WordListItem} {i : Nat} (h : sentinelPrefix wl) :
    sentinelPrefix (rule310 wl i) := by
  simp only [rule310]
  split
  · next hg =>
    exact (h.set (h.ge10_of_tag_ne (ne_empty_of_mem hg.2.1 (by decide))) _).set
      (h.ge10_of_lowercase_ne (ne_empty_of_mem hg.2.2 (by decide))) _
  · exact h

lemma rule311_sp {wl : List WordListItem} {i : Nat} (h : sentinelPrefix wl)
    (hi : 10 ≤ i) : sentinelPrefix (rule311 wl i) := by
  simp only [rule311]
  split
  · split
    · exact h.set hi _
    · exact h
  · exact h

lemma handle_linking_sp {wl : List WordListItem} {i : Nat} {m : Bool}
    (h : sentinelPrefix wl) (hi : 10 ≤ i) :
    sentinelPrefix (handle_linking_verbs wl i m).1 ∧
      10 ≤ (handle_linking_verbs wl i m).2 := by
  simp only [handle_linking_verbs]
  exact ⟨rule311_sp (rule310_sp (rule302_sp (rule301_sp h))) hi, hi⟩

lemma rule401_sp {wl : List WordListItem} {i : Nat} (h : sentinelPrefix wl) :
    sentinelPrefix (rule401 wl i) := by
  simp only [rule401]
  split
  · next hg =>
    exact h.set (h.ge10_of_lowercase_ne (ne_empty_of_mem hg.2 (by decide))) _
  · exact h

lemma rule402_sp {wl : List WordListItem} {i : Nat} (h : sentinelPrefix wl) :
    sentinelPrefix (rule402 wl i) := by
  simp only [rule402]
  split
  · next hg =>
    exact h.set (h.ge10_of_lowercase_ne (ne_empty_of_mem hg.2 (by decide))) _
  · exact h

lemma rule405_sp {wl : List WordListItem} {i : Nat} (h : sentinelPrefix wl) :
    sentinelPrefix (rule405 wl i) := by
  simp only [rule405]
  split
  · next hg =>
    exact h.set (h.ge10_of_lowercase_ne (ne_empty_of_mem hg.2.2 (by decide))) _
  · exact h

lemma handle_aux_sp {wl : List WordListItem} {i : Nat} {m : Bool}
    (h : sentinelPrefix wl) (hi : 10 ≤ i) :
    sentinelPrefix (handle_auxiliary_verbs wl i m).1 ∧
      10 ≤ (handle_auxiliary_verbs wl i m).2 := by
  simp only [handle_auxiliary_verbs]
  exact ⟨rule405_sp (rule402_sp (rule401_sp h)), hi⟩

lemma rule510_sp {wl : List WordListItem} {i : Nat} (h : sentinelPrefix wl) :
    sentinelPrefix (rule510 wl i) := by
  simp only [rule510]
  split
  · next hg => exact h.set (h.ge10_of_tag_ne (by rw [hg.2]; decide)) _
  · exact h

lemma rule511_sp {wl : List WordListItem} {i : Nat} (h : sentinelPrefix wl) :
    sentinelPrefix (rule511 wl i) := by
  simp only [rule511]
  split
  · split
    · next j heq => exact h.set (search_backwards_index_ge10 h heq) _
    · exact h
  · exact h

lemma handle_to_sp {wl : List WordListItem} {i : Nat} {m : Bool}
    (h : sentinelPrefix wl) (hi : 10 ≤ i) :
    sentinelPrefix (handle_constructions_involving_to wl i m).1 ∧
      10 ≤ (handle_constructions_involving_to wl i m).2 := by
  simp only [handle_constructions_involving_to]
  exact ⟨rule511_sp (rule510_sp h), hi⟩

lemma rule610_foldl_sp :
    ∀ (idxs : List Nat) (wl : List WordListItem), sentinelPrefix wl →
      (∀ j ∈ idxs, 10 ≤ j) →
      sentinelPrefix (idxs.foldl (fun wl j =>
        wl.set j
          { wl.getD j sentinelItem with tag := "", is_proposition := false, rule_number := 610 }) wl)
  | [], _, h, _ => h
  | j :: rest, wl, h, hall => by
    simp only [List.foldl_cons]
    exact rule610_foldl_sp rest _ (h.set (hall j (by simp)) _)
      (fun k hk => hall k (by simp [hk]))

lemma rule610_sp {wl : List WordListItem} {i : Nat} (h : sentinelPrefix wl)
    (hi : 10 ≤ i) : sentinelPrefix (rule610 wl i) := by
  simp only [rule610]
  split
  · split
    · apply rule610_foldl_sp _ _ h
      intro j hj
      rw [List.mem_range'_1] at hj
      have := beginning_of_sentence_ge10 h hi
      omega
    · exact h
  · exact h

lemma rule632_sp {wl : List WordListItem} {i : Nat} (h : sentinelPrefix wl)
    (hi : 10 ≤ i) : sentinelPrefix (rule632 wl i) := by
  simp only [rule632]
  split
  · exact h.set hi _
  · exact h

lemma rule634_sp {wl : List WordListItem} {i : Nat} (h : sentinelPrefix wl)
    (hi : 10 ≤ i) :
    sentinelPrefix (rule634 wl i).1 ∧ 10 ≤ (rule634 wl i).2 := by
  simp only [rule634]
  split
  · next hg =>
    have h1 : 10 ≤ i - 1 :=
      h.ge10_of_lowercase_ne (by rw [hg.2.1]; decide)
    exact ⟨(h.pyDelete hi).set (by omega) _, h1⟩
  · exact ⟨h, hi⟩

lemma handle_fillers_sp {wl : List WordListItem} {i : Nat} {m : Bool}
    (h : sentinelPrefix wl) (hi : 10 ≤ i) :
    sentinelPrefix (handle_fillers wl i m).1 ∧
      10 ≤ (handle_fillers wl i m).2 := by
  simp only [handle_fillers]
  split
  · exact ⟨h, hi⟩
  · exact rule634_sp (rule632_sp (rule610_sp h hi) hi) hi

lemma loopBody_sp {r : String → String → ℚ} {wl : List WordListItem}
    {i : Nat} {m : Bool} (h : sentinelPrefix wl) (hi : 10 ≤ i) :
    sentinelPrefix (loopBody r wl i m).1 := by
  rcases hp1 : identify_words_and_adjust_tags r wl i m with ⟨wl1, i1⟩
  have h1 := @identify_words_sp r wl i m h hi
  rw [hp1] at h1
  rcases hp2 : adjust_word_order wl1 i1 m with ⟨wl2, i2⟩
  have h2 := @adjust_word_order_sp _ _ m h1.1 h1.2
  rw [hp2] at h2
  rcases hp3 : identify_potential_propositions wl2 i2 m with ⟨wl3, i3⟩
  have h3 := @identify_potential_sp _ _ m h2.1 h2.2
  rw [hp3] at h3
  rcases hp4 : handle_linking_verbs wl3 i3 m with ⟨wl4, i4⟩
  have h4 := @handle_linking_sp _ _ m h3.1 h3.2
  rw [hp4] at h4
  rcases hp5 : handle_auxiliary_verbs wl4 i4 m with ⟨wl5, i5⟩
  have h5 := @handle_aux_sp _ _ m h4.1 h4.2
  rw [hp5] at h5
  rcases hp6 : handle_constructions_involving_to wl5 i5 m with ⟨wl6, i6⟩
  have h6 := @handle_to_sp _ _ m h5.1 h5.2
  rw [hp6] at h6
  have h7 := @handle_fillers_sp _ _ m h6.1 h6.2
  simp only [loopBody, hp1, hp2, hp3, hp4, hp5, hp6]
  exact h7.1

lemma loopAux_sp {r : String → String → ℚ} {m : Bool} :
    ∀ {fuel : Nat} {wl out : List WordListItem} {i : Nat},
      sentinelPrefix wl → loopAux r m fuel wl i = some out →
      sentinelPrefix out := by
  intro fuel
  induction fuel with
  | zero => intro wl out i h hrun; simp [loopAux] at hrun
  | succ fuel ih =>
    intro wl out i h hrun
    simp only [loopAux] at hrun
    split at hrun
    · split at hrun
      · exact ih h hrun
      · next htok =>
        have hi : 10 ≤ i := h.ge10_of_token_ne htok
        exact ih (loopBody_sp h hi) hrun
    · cases hrun
      exact h

lemma apply_rules_sp {r : String → String → ℚ} {fuel : Nat} {m : Bool}
    {wl out : List WordListItem} (h : sentinelPrefix wl)
    (hrun : apply_idea_counting_rules r fuel wl m = some out) :
    sentinelPrefix out :=
  loopAux_sp h hrun

/-- C9: the builder produces exactly ten sentinel items (empty token and
tag, both flags false, rule 0) followed by one freshly initialised item per
input pair, in order; and the rule-engine pass preserves the sentinel
prefix — each iteration of the loop body keeps the first ten slots exactly
equal to the sentinel items (so they are never deleted, never receive a
non-empty token), and any completed pass returns a list that still has the
sentinel prefix and length at least 10. -/
theorem c9_builder_and_sentinel_invariant :
    (∀ tagged : List (String × String),
      (wordListItems tagged).length = 10 + tagged.length ∧
      (wordListItems tagged).take 10 = List.replicate 10 sentinelItem ∧
      (wordListItems tagged).drop 10 =
        tagged.map (fun p => mkWordListItem p.1 p.2 false false 0) ∧
      sentinelItem.token = "" ∧ sentinelItem.tag = "" ∧
      sentinelItem.is_word = false ∧ sentinelItem.is_proposition = false ∧
      sentinelItem.rule_number = 0) ∧
    (∀ (r : String → String → ℚ) (wl : List WordListItem) (i : Nat)
        (m : Bool), sentinelPrefix wl →
      (wl.getD i sentinelItem).token ≠ "" →
      sentinelPrefix (loopBody r wl i m).1 ∧
        10 ≤ (loopBody r wl i m).1.length) ∧
    (∀ (r : String → String → ℚ) (fuel : Nat) (m : Bool)
        (tagged : List (String × String)) (out : List WordListItem),
      apply_idea_counting_rules r fuel (wordListItems tagged) m = some out →
      sentinelPrefix out ∧ 10 ≤ out.length) := by
  refine ⟨?_, ?_, ?_⟩
  · intro tagged
    refine ⟨?_, sentinelPrefix_wordListItems tagged, ?_, rfl, rfl, rfl, rfl, rfl⟩
    · simp [wordListItems, DEFAULT_ITEM_COUNT]
      omega
    · have h10 : (List.replicate DEFAULT_ITEM_COUNT sentinelItem).length = 10 := by
        simp [DEFAULT_ITEM_COUNT]
      rw [wordListItems, ← h10, List.drop_left]
  · intro r wl i m h htok
    have hsp := @loopBody_sp r _ _ m h (h.ge10_of_token_ne htok)
    exact ⟨hsp, hsp.length_ge⟩
  · intro r fuel m tagged out hrun
    have hsp := apply_rules_sp (sentinelPrefix_wordListItems tagged) hrun
    exact ⟨hsp, hsp.length_ge⟩

set_option maxRecDepth 4000 in
/-- Witness for C9: the sentinel-prefix preservation instantiated on the
concrete input `[("a", "DT")]`, both for one loop-body step at the first
live position and for a completed pass. -/
theorem c9_witness :
    (sentinelPrefix (loopBody (fun _ _ => 0)
        (wordListItems [("a", "DT")]) 10 false).1 ∧
      10 ≤ (loopBody (fun _ _ => 0)
        (wordListItems [("a", "DT")]) 10 false).1.length) ∧
    (sentinelPrefix ((apply_idea_counting_rules (fun _ _ => 0) 15
        (wordListItems [("a", "DT")]) false).getD []) ∧
      10 ≤ ((apply_idea_counting_rules (fun _ _ => 0) 15
        (wordListItems [("a", "DT")]) false).getD []).length) :=
  ⟨c9_builder_and_sentinel_invariant.2.1 (fun _ _ => 0)
      (wordListItems [("a", "DT")]) 10 false
      (by unfold sentinelPrefix; decide) (by decide),
    c9_builder_and_sentinel_invariant.2.2 (fun _ _ => 0) 15 false
      [("a", "DT")] _ (by decide)⟩

/-! ## C1: the counter and the density formula -/

lemma sum_ind_eq_countP (p : WordListItem → Bool) :
    ∀ items : List WordListItem,
      ((items.map (fun w => if p w then 1 else 0)).sum : Nat) =
        items.countP p := by
  intro items
  induction items with
  | nil => rfl
  | cons a t ih =>
    cases hp : p a <;> simp [List.countP_cons, hp, ih] <;> omega

/-- C1: `count_words_and_propositions` returns exactly the number of items
with `is_word` true and the number with `is_proposition` true, and every
result `rate_text` returns satisfies `density = propositionCount /
wordCount` when `wordCount > 0` and `density = 0` when `wordCount = 0`;
whenever the returned word list is present, the returned counts are the
counts over that returned (unmodified) list.  The counter of the embedding
is a pure function of the list, so counting cannot modify it. -/
theorem c1_counter_counts_flags_and_density :
    (∀ items : List WordListItem,
      (count_words_and_propositions items).1 =
        items.countP (fun w => w.is_word) ∧
      (count_words_and_propositions items).2 =
        items.countP (fun w => w.is_proposition)) ∧
    (∀ (tagger : String → Except String (List (String × String)))
        (r : String → String → ℚ) (fuel : Nat) (text : PyValue) (m : Bool)
        (wc pc : Nat) (d : ℚ) (owl : Option (List WordListItem)),
      rate_text tagger r fuel text m = some (Except.ok (wc, pc, d, owl)) →
      d = (if 0 < wc then (pc : ℚ) / (wc : ℚ) else 0) ∧
      ∀ wl, owl = some wl →
        wc = (count_words_and_propositions wl).1 ∧
        pc = (count_words_and_propositions wl).2) := by
  constructor
  · intro items
    exact ⟨sum_ind_eq_countP _ items, sum_ind_eq_countP _ items⟩
  · intro tagger r fuel text m wc pc d owl h
    have handle_zero :
        (some (Except.ok (0, 0, 0, Option.none)) :
            Option (Except String (Nat × Nat × ℚ × Option (List WordListItem)))) =
          some (Except.ok (wc, pc, d, owl)) →
        d = (if 0 < wc then (pc : ℚ) / (wc : ℚ) else 0) ∧
        ∀ wl, owl = some wl →
          wc = (count_words_and_propositions wl).1 ∧
          pc = (count_words_and_propositions wl).2 := by
      intro hz
      simp only [Option.some.injEq, Except.ok.injEq, Prod.mk.injEq] at hz
      obtain ⟨h1, h2, h3, h4⟩ := hz
      subst h1; subst h2; subst h3
      refine ⟨by simp, ?_⟩
      intro wl hwl
      rw [← h4] at hwl
      exact absurd hwl (by simp)
    cases text with
    | none =>
      simp only [rate_text, Option.some.injEq, Except.ok.injEq,
        Prod.mk.injEq] at h
      obtain ⟨h1, h2, h3, h4⟩ := h
      subst h1; subst h2; subst h3
      refine ⟨by simp, ?_⟩
      intro wl hwl
      rw [← h4] at hwl
      cases hwl
      constructor <;> decide
    | str s =>
      cases htag : tagger s with
      | error e =>
        simp only [rate_text, tag_text, htag] at h
        exact handle_zero h
      | ok tg =>
        cases happ : apply_idea_counting_rules r fuel (wordListItems tg) m with
        | none => simp [rate_text, tag_text, htag, happ] at h
        | some wl2 =>
          simp only [rate_text, tag_text, htag, happ] at h
          simp only [Option.some.injEq, Except.ok.injEq, Prod.mk.injEq] at h
          obtain ⟨h1, h2, h3, h4⟩ := h
          subst h1; subst h2
          refine ⟨?_, ?_⟩
          · rw [← h3]
            split_ifs
            · rw [Rat.mkRat_eq_div]
              norm_num
            · rfl
          intro wl hwl
          rw [← h4] at hwl
          cases hwl
          exact ⟨rfl, rfl⟩
    | other o =>
      simp only [rate_text, tag_text] at h
      exact handle_zero h

set_option maxRecDepth 4000 in
/-- Witness for C1: the density clause evaluated on the concrete run in
which the tagger yields `[("a", "DT")]`, giving `wordCount = 1`,
`propositionCount = 0`, `density = 0`. -/
theorem c1_witness :
    (0 : ℚ) = (if 0 < (1 : Nat) then ((0 : Nat) : ℚ) / ((1 : Nat) : ℚ) else 0) ∧
    ∀ wl, (some ((apply_idea_counting_rules (fun _ _ => 0) 15
        (wordListItems [("a", "DT")]) false).getD []) :
          Option (List WordListItem)) = some wl →
      (1 : Nat) = (count_words_and_propositions wl).1 ∧
      (0 : Nat) = (count_words_and_propositions wl).2 :=
  c1_counter_counts_flags_and_density.2 (fun _ => Except.ok [("a", "DT")])
    (fun _ _ => 0) 15 (PyValue.str "x") false 1 0 0
    (some ((apply_idea_counting_rules (fun _ _ => 0) 15
      (wordListItems [("a", "DT")]) false).getD [])) (by decide)

/-! ## C2: non-string input -/

/-- Counterexample for C2: on the non-string input `PyValue.other 0`,
`rate_text` does not raise anything to the caller — it returns the normal
zero-valued result `(0, 0, 0.0)` with the word list absent, because the
`TypeError` raised by `tag_text` is caught by the `try/except Exception`
block inside `rate_text`. -/
theorem c2_counterexample_nonstring_no_raise :
    rate_text (fun _ => Except.ok []) (fun _ _ => 0) 5 (PyValue.other 0)
        false = some (Except.ok (0, 0, 0, Option.none)) ∧
    ∀ e, rate_text (fun _ => Except.ok []) (fun _ _ => 0) 5 (PyValue.other 0)
        false ≠ some (Except.error e) :=
  ⟨rfl, fun _ h => Except.noConfusion (Option.some.inj h)⟩

/-- C2 as amended: for every non-string, non-null input, `tag_text` raises
the descriptive `TypeError("Input text must be a string.")`, but
`rate_text` catches it and returns the zero-valued result with the word
list absent.  Nothing propagates to `rate_text`'s caller. -/
theorem c2_amended_nonstring_caught_to_zero_result :
    ∀ (tagger : String → Except String (List (String × String)))
      (r : String → String → ℚ) (fuel o : Nat) (m : Bool),
      tag_text tagger (PyValue.other o) =
        Except.error "Input text must be a string." ∧
      rate_text tagger r fuel (PyValue.other o) m =
        some (Except.ok (0, 0, 0, Option.none)) :=
  fun _ _ _ _ _ => ⟨rfl, rfl⟩

/-! ## C3: null text and processing failure -/

/-- C3: `rate_text(None)` returns the three zero values together with a
present word list that contains no token (the `WordList([])` value: ten
sentinel items, every token empty); when the tagger raises, `rate_text`
catches the exception and returns the same three zero values with the word
list absent (`None`), so the two cases are distinguished exactly by the
presence of the word list. -/
theorem c3_null_and_failure_results :
    (∀ (tagger : String → Except String (List (String × String)))
        (r : String → String → ℚ) (fuel : Nat) (m : Bool),
      rate_text tagger r fuel PyValue.none m =
        some (Except.ok (0, 0, 0, some (wordListItems []))) ∧
      ∀ w ∈ wordListItems [], w.token = "") ∧
    (∀ (tagger : String → Except String (List (String × String)))
        (r : String → String → ℚ) (fuel : Nat) (m : Bool) (s e : String),
      tagger s = Except.error e →
      rate_text tagger r fuel (PyValue.str s) m =
        some (Except.ok (0, 0, 0, Option.none))) := by
  constructor
  · intro tagger r fuel m
    exact ⟨rfl, by decide⟩
  · intro tagger r fuel m s e htag
    simp only [rate_text, tag_text, htag]

/-- Witness for C3: a concrete failing tagger (the spaCy-model-missing
`OSError` path) produces the zero result with the word list absent. -/
theorem c3_witness :
    rate_text (fun _ => Except.error "en_core_web_sm is not installed")
        (fun _ _ => 0) 5 (PyValue.str "hello") false =
      some (Except.ok (0, 0, 0, Option.none)) :=
  c3_null_and_failure_results.2
    (fun _ => Except.error "en_core_web_sm is not installed")
    (fun _ _ => 0) 5 false "hello" "en_core_web_sm is not installed" rfl

/-! ## C4: rule 54 ("that"/"this" before a verb or adverb) -/

set_option maxRecDepth 4000 in
/-- C4, code evaluation: rule 54 can never fire, because the source tests
`word in VERBS or word in ADVERBS` on the `WordListItem` object itself
instead of on `word.tag` (see `item_in_string_set`).  On the failing input
`[("that", "DT"), ("runs", "VBZ")]` — where the repository's own test
`test_determiner_to_pronoun_adjustment` expects tag `"PRP"`,
`is_proposition = False` and rule 54 — the full pass leaves the "that"
item with tag `"DT"`, `is_proposition = true` and rule 200. -/
theorem c4_rule54_never_fires :
    (∀ (wl : List WordListItem) (i : Nat), rule054 wl i = wl) ∧
    (((apply_idea_counting_rules (fun _ _ => 0) 20
        (wordListItems [("that", "DT"), ("runs", "VBZ")]) false).getD
          []).getD 10 sentinelItem).tag = "DT" ∧
    (((apply_idea_counting_rules (fun _ _ => 0) 20
        (wordListItems [("that", "DT"), ("runs", "VBZ")]) false).getD
          []).getD 10 sentinelItem).is_proposition = true ∧
    (((apply_idea_counting_rules (fun _ _ => 0) 20
        (wordListItems [("that", "DT"), ("runs", "VBZ")]) false).getD
          []).getD 10 sentinelItem).rule_number = 200 :=
  ⟨rule054_eq, by decide, by decide, by decide⟩

/-! ## C7: the backward-search window -/

lemma range'_reverse_cons (s n : Nat) :
    (List.range' s (n + 1)).reverse = (s + n) :: (List.range' s n).reverse := by
  rw [List.range'_concat]
  simp

lemma searchLoop_range_eq_specGo (wl : List WordListItem)
    (cond : WordListItem → Bool) :
    ∀ (w j : Nat),
      (searchLoop wl cond ((List.range' (j - min j w) (min j w)).reverse)).map
          (fun j => wl.getD j sentinelItem) =
        specGo wl cond j w := by
  intro w
  induction w with
  | zero => intro j; simp [specGo, searchLoop]
  | succ w ih =>
    intro j
    cases j with
    | zero => simp [specGo, searchLoop]
    | succ j1 =>
      have hmin : min (j1 + 1) (w + 1) = min j1 w + 1 := by omega
      have hstart : (j1 + 1) - (min j1 w + 1) = j1 - min j1 w := by omega
      rw [hmin, hstart, range'_reverse_cons]
      have hj1 : j1 - min j1 w + min j1 w = j1 := by omega
      rw [hj1]
      simp only [searchLoop, specGo]
      split
      · rfl
      · split
        · rfl
        · exact ih j1

/-- Counterexample for C7: with ten live items at indices 10–19 and the
only matching item at index 10 — exactly 10 positions before `i = 20`,
with no sentence boundary in between — the source's `search_backwards`
returns `None`, while the claimed 10-item window would find the item.  The
`range(i - 1, max(i - MAX_LOOKBACK, -1), -1)` loop visits only the 9
indices `i - 1 … i - 9`. -/
theorem c7_counterexample_window_not_ten :
    search_backwards
        (wordListItems (("Target", "T") :: List.replicate 9 ("a", "A"))) 20
        (fun w => w.tag == "T") = Option.none ∧
    searchBackwardsSpec 10
        (wordListItems (("Target", "T") :: List.replicate 9 ("a", "A"))) 20
        (fun w => w.tag == "T") =
      some (mkWordListItem "Target" "T" false false 0) := by
  constructor <;> decide

/-- C7 as amended: `search_backwards` inspects only the 9 items
immediately preceding index `i` (never the item at `i`, never more than 9
back, never below index 0), stops at the first sentence-end or empty tag,
and returns the nearest preceding item satisfying the predicate within
that window, or `None`. -/
theorem c7_amended_search_window_is_nine :
    ∀ (word_list : List WordListItem) (i : Nat)
      (condition : WordListItem → Bool),
      search_backwards word_list i condition =
        searchBackwardsSpec 9 word_list i condition := by
  intro wl i cond
  have h := searchLoop_range_eq_specGo wl cond 9 i
  unfold search_backwards search_backwards_index searchBackwardsRange
    searchBackwardsSpec
  have h9 : MAX_LOOKBACK - 1 = 9 := rfl
  rw [h9]
  exact h

/-! ## C5: the cardinal-number merge (rule 003) -/

lemma set_of_length_le {l : List α} {n : Nat} {a : α} (h : l.length ≤ n) :
    l.set n a = l := by
  induction l generalizing n with
  | nil => rfl
  | cons x xs ih =>
    cases n with
    | zero => simp at h
    | succ n =>
      simp only [List.set]
      rw [ih (by simpa using h)]

lemma getD_pyDelete_ge {l : List α} {m n : Nat} {d : α} (h : n ≤ m) :
    (pyDelete l n).getD m d = l.getD (m + 1) d := by
  by_cases hl : l.length ≤ n
  · rw [pyDelete_of_length_le hl]
    have h1 : l.length ≤ m := by omega
    have h2 : l.length ≤ m + 1 := by omega
    simp [List.getD_eq_getElem?_getD, List.getElem?_len_le, h1, h2]
  · have hlen : (l.take n).length = n := by simp; omega
    rw [List.getD_eq_getElem?_getD, List.getD_eq_getElem?_getD, pyDelete,
      List.getElem?_append, hlen, if_neg (by omega), List.getElem?_drop]
    congr 2
    omega

lemma set_keeps_token {wl : List WordListItem} {n : Nat} {x : WordListItem}
    (hx : x.token = (wl.getD n sentinelItem).token) (j : Nat) :
    ((wl.set n x).getD j sentinelItem).token =
      (wl.getD j sentinelItem).token := by
  by_cases hj : n = j
  · subst hj
    by_cases hn : n < wl.length
    · rw [getD_set_self hn, hx]
    · rw [set_of_length_le (by omega)]
  · rw [getD_set_ne hj]

lemma set_keeps_tag {wl : List WordListItem} {n : Nat} {x : WordListItem}
    (hx : x.tag = (wl.getD n sentinelItem).tag) (j : Nat) :
    ((wl.set n x).getD j sentinelItem).tag =
      (wl.getD j sentinelItem).tag := by
  by_cases hj : n = j
  · subst hj
    by_cases hn : n < wl.length
    · rw [getD_set_self hn, hx]
    · rw [set_of_length_le (by omega)]
  · rw [getD_set_ne hj]

lemma rule001_noop {wl : List WordListItem} {i : Nat}
    (h : (wl.getD i sentinelItem).token ≠ "^") : rule001 wl i = wl := by
  simp only [rule001]
  rw [if_neg h]

lemma set_keeps_token2 {wl : List WordListItem} {n1 n2 : Nat}
    {x y : WordListItem} (hx : x.token = (wl.getD n1 sentinelItem).token)
    (hy : y.token = (wl.getD n2 sentinelItem).token) (j : Nat) :
    (((wl.set n1 x).set n2 y).getD j sentinelItem).token =
      (wl.getD j sentinelItem).token := by
  have h2 : y.token = ((wl.set n1 x).getD n2 sentinelItem).token :=
    hy.trans (set_keeps_token hx n2).symm
  rw [set_keeps_token h2 j, set_keeps_token hx j]

lemma set_keeps_token3 {wl : List WordListItem} {n1 n2 n3 : Nat}
    {x y z : WordListItem} (hx : x.token = (wl.getD n1 sentinelItem).token)
    (hy : y.token = (wl.getD n2 sentinelItem).token)
    (hz : z.token = (wl.getD n3 sentinelItem).token) (j : Nat) :
    ((((wl.set n1 x).set n2 y).set n3 z).getD j sentinelItem).token =
      (wl.getD j sentinelItem).token := by
  have h3 : z.token = (((wl.set n1 x).set n2 y).getD n3 sentinelItem).token :=
    hz.trans (set_keeps_token2 hx hy n3).symm
  rw [set_keeps_token h3 j, set_keeps_token2 hx hy j]

lemma rule002_token_tag (wl : List WordListItem) (i : Nat) :
    (rule002 wl i).length = wl.length ∧
    ∀ j, ((rule002 wl i).getD j sentinelItem).token =
        (wl.getD j sentinelItem).token ∧
      ((rule002 wl i).getD j sentinelItem).tag =
        (wl.getD j sentinelItem).tag := by
  simp only [rule002]
  split
  · refine ⟨List.length_set .., fun j =>
      ⟨set_keeps_token ?_ j, set_keeps_tag ?_ j⟩⟩ <;> rfl
  · exact ⟨rfl, fun _ => ⟨rfl, rfl⟩⟩

lemma rule020_token (r : String → String → ℚ) (wl : List WordListItem)
    (i : Nat) :
    (rule020 r wl i).length = wl.length ∧
    ∀ j, ((rule020 r wl i).getD j sentinelItem).token =
      (wl.getD j sentinelItem).token := by
  simp only [rule020]
  split
  · refine ⟨List.length_set .., fun j => set_keeps_token ?_ j⟩
    rfl
  · exact ⟨rfl, fun _ => rfl⟩

lemma rule021022_token (r : String → String → ℚ) (wl : List WordListItem)
    (i : Nat) :
    (rule021022 r wl i).length = wl.length ∧
    ∀ j, ((rule021022 r wl i).getD j sentinelItem).token =
      (wl.getD j sentinelItem).token := by
  simp only [rule021022]
  split
  · split
    · refine ⟨by simp, fun j => set_keeps_token2 ?_ ?_ j⟩ <;> rfl
    · refine ⟨List.length_set .., fun j => set_keeps_token ?_ j⟩
      rfl
  · exact ⟨rfl, fun _ => rfl⟩

lemma rule023_token (r : String → String → ℚ) (wl : List WordListItem)
    (i : Nat) :
    (rule023 r wl i).length = wl.length ∧
    ∀ j, ((rule023 r wl i).getD j sentinelItem).token =
      (wl.getD j sentinelItem).token := by
  simp only [rule023]
  split
  · refine ⟨by simp, fun j => set_keeps_token3 ?_ ?_ ?_ j⟩ <;> rfl
  · exact ⟨rfl, fun _ => rfl⟩

lemma rule050_token (wl : List WordListItem) (i : Nat) :
    (rule050 wl i).length = wl.length ∧
    ∀ j, ((rule050 wl i).getD j sentinelItem).token =
      (wl.getD j sentinelItem).token := by
  simp only [rule050]
  split
  · refine ⟨List.length_set .., fun j => set_keeps_token ?_ j⟩
    rfl
  · exact ⟨rfl, fun _ => rfl⟩

/-- Token- and length-preservation across the speech-mode branch and the
tail rules 050 and 054 of `identify_words_and_adjust_tags`. -/
lemma tail_rules_token (r : String → String → ℚ) (m : Bool)
    (wl : List WordListItem) (i : Nat) :
    (rule054 (rule050 (if m then rule023 r
        (if m then rule021022 r (if m then rule020 r wl i else wl) i
         else (if m then rule020 r wl i else wl)) i
        else (if m then rule021022 r (if m then rule020 r wl i else wl) i
         else (if m then rule020 r wl i else wl))) i) i).length =
      wl.length ∧
    ∀ j, ((rule054 (rule050 (if m then rule023 r
        (if m then rule021022 r (if m then rule020 r wl i else wl) i
         else (if m then rule020 r wl i else wl)) i
        else (if m then rule021022 r (if m then rule020 r wl i else wl) i
         else (if m then rule020 r wl i else wl))) i) i).getD j
          sentinelItem).token =
      (wl.getD j sentinelItem).token := by
  rw [rule054_eq]
  cases m with
  | false =>
    simp only [if_neg Bool.false_ne_true]
    exact rule050_token wl i
  | true =>
    simp only [eq_self_iff_true, if_true]
    obtain ⟨l20, t20⟩ := rule020_token r wl i
    obtain ⟨l21, t21⟩ := rule021022_token r (rule020 r wl i) i
    obtain ⟨l23, t23⟩ := rule023_token r (rule021022 r (rule020 r wl i) i) i
    obtain ⟨l50, t50⟩ := rule050_token
      (rule023 r (rule021022 r (rule020 r wl i) i) i) i
    refine ⟨by rw [l50, l23, l21, l20], fun j => ?_⟩
    rw [t50 j, t23 j, t21 j, t20 j]

/-- C5: whenever two adjacent items are both tagged `CD`, the rule engine
(through `identify_words_and_adjust_tags`) collapses them into one item
whose text is the two tokens joined by a single space, the returned cursor
steps back onto the merged item, and the emptied successor slot is
physically removed: the list is one item shorter, tokens before the merged
item are unchanged, and every token after it is the token that used to
live one position further right.  The hypotheses restrict to the
configuration where only rule 003 acts on the pair: the current token is
not the broken-sentence marker `^` (rule 001 would retag it first), and
the preceding context does not additionally trigger the rule-004
cardinal-separator-cardinal merge. -/
theorem c5_adjacent_cardinals_merge (r : String → String → ℚ)
    (wl : List WordListItem) (i : Nat) (m : Bool)
    (hi : 10 ≤ i) (hlen : i < wl.length)
    (h1 : (wl.getD i sentinelItem).tag = "CD")
    (h2 : (wl.getD (i - 1) sentinelItem).tag = "CD")
    (hcaret : (wl.getD i sentinelItem).token ≠ "^")
    (h004 : ¬(pyLen ((wl.getD (i - 2) sentinelItem).token) > 0 ∧
      ¬(pyFirstChar ((wl.getD (i - 2) sentinelItem).token)).isAlphanum ∧
      (wl.getD (i - 3) sentinelItem).tag = "CD")) :
    (identify_words_and_adjust_tags r wl i m).2 = i - 1 ∧
    (identify_words_and_adjust_tags r wl i m).1.length = wl.length - 1 ∧
    ((identify_words_and_adjust_tags r wl i m).1.getD (i - 1)
        sentinelItem).token =
      (wl.getD (i - 1) sentinelItem).token ++ " " ++
        (wl.getD i sentinelItem).token ∧
    (∀ j, j < i - 1 →
      ((identify_words_and_adjust_tags r wl i m).1.getD j
          sentinelItem).token = (wl.getD j sentinelItem).token) ∧
    (∀ j, i - 1 < j →
      ((identify_words_and_adjust_tags r wl i m).1.getD j
          sentinelItem).token = (wl.getD (j + 1) sentinelItem).token) := by
  have e1 : rule001 wl i = wl := rule001_noop hcaret
  obtain ⟨hlen2, hft2⟩ := rule002_token_tag wl i
  simp only [identify_words_and_adjust_tags, e1]
  set A := rule002 wl i with hA
  have g1 : (A.getD i sentinelItem).tag = "CD" := (hft2 i).2.trans h1
  have g2 : (A.getD (i - 1) sentinelItem).tag = "CD" :=
    (hft2 (i - 1)).2.trans h2
  set M : WordListItem :=
    { A.getD (i - 1) sentinelItem with
      token := (A.getD (i - 1) sentinelItem).token ++ " " ++
        (A.getD i sentinelItem).token,
      rule_number := 3 } with hM
  have e3 : rule003 A i = (pyDelete (A.set (i - 1) M) i, i - 1) := by
    simp only [rule003]
    rw [if_pos ⟨g1, g2⟩]
  simp only [e3]
  set W3 := pyDelete (A.set (i - 1) M) i with hW3
  have hi1A : i - 1 < A.length := by rw [hlen2]; omega
  have f1 : W3.getD (i - 1) sentinelItem = M := by
    rw [hW3, getD_pyDelete_lt (by omega), getD_set_self hi1A]
  have f2tok : (W3.getD (i - 2) sentinelItem).token =
      (wl.getD (i - 2) sentinelItem).token := by
    rw [hW3, getD_pyDelete_lt (by omega), getD_set_ne (by omega),
      (hft2 (i - 2)).1]
  have f3tag : (W3.getD (i - 3) sentinelItem).tag =
      (wl.getD (i - 3) sentinelItem).tag := by
    rw [hW3, getD_pyDelete_lt (by omega), getD_set_ne (by omega),
      (hft2 (i - 3)).2]
  have e4 : rule004 W3 (i - 1) = (W3, i - 1) := by
    simp only [rule004]
    rw [if_neg ?_]
    intro hc
    apply h004
    have hidx1 : i - 1 - 1 = i - 2 := by omega
    have hidx2 : i - 1 - 2 = i - 3 := by omega
    rw [hidx1, hidx2, f2tok, f3tag] at hc
    exact ⟨hc.2.1, hc.2.2.1, hc.2.2.2⟩
  simp only [e4]
  obtain ⟨hlenT, htokT⟩ := tail_rules_token r m W3 (i - 1)
  have hSlen : (A.set (i - 1) M).length = wl.length := by
    rw [List.length_set, hlen2]
  refine ⟨by trivial, ?_, ?_, ?_, ?_⟩
  · rw [hlenT, hW3, length_pyDelete (by omega), hSlen]
  · rw [htokT (i - 1), f1]
    simp only [hM]
    rw [(hft2 (i - 1)).1, (hft2 i).1]
  · intro j hj
    rw [htokT j, hW3, getD_pyDelete_lt (by omega), getD_set_ne (by omega),
      (hft2 j).1]
  · intro j hj
    rw [htokT j, hW3, getD_pyDelete_ge (by omega), getD_set_ne (by omega),
      (hft2 (j + 1)).1]

/-- Witness for C5: the merge on the concrete pair `"10"/CD`, `"20"/CD`
at `i = 11`: the cursor returns to 10, the list shrinks from 12 items to
11, and the merged token is `"10 20"`. -/
theorem c5_witness :
    (identify_words_and_adjust_tags (fun _ _ => 0)
        (wordListItems [("10", "CD"), ("20", "CD")]) 11 false).2 = 11 - 1 ∧
    (identify_words_and_adjust_tags (fun _ _ => 0)
        (wordListItems [("10", "CD"), ("20", "CD")]) 11 false).1.length =
      (wordListItems [("10", "CD"), ("20", "CD")]).length - 1 ∧
    ((identify_words_and_adjust_tags (fun _ _ => 0)
        (wordListItems [("10", "CD"), ("20", "CD")]) 11 false).1.getD
          (11 - 1) sentinelItem).token =
      ((wordListItems [("10", "CD"), ("20", "CD")]).getD (11 - 1)
          sentinelItem).token ++ " " ++
        ((wordListItems [("10", "CD"), ("20", "CD")]).getD 11
          sentinelItem).token ∧
    (∀ j, j < 11 - 1 →
      ((identify_words_and_adjust_tags (fun _ _ => 0)
          (wordListItems [("10", "CD"), ("20", "CD")]) 11 false).1.getD j
            sentinelItem).token =
        ((wordListItems [("10", "CD"), ("20", "CD")]).getD j
            sentinelItem).token) ∧
    (∀ j, 11 - 1 < j →
      ((identify_words_and_adjust_tags (fun _ _ => 0)
          (wordListItems [("10", "CD"), ("20", "CD")]) 11 false).1.getD j
            sentinelItem).token =
        ((wordListItems [("10", "CD"), ("20", "CD")]).getD (j + 1)
            sentinelItem).token) :=
  c5_adjacent_cardinals_merge (fun _ _ => 0)
    (wordListItems [("10", "CD"), ("20", "CD")]) 11 false (by decide)
    (by decide) (by decide) (by decide) (by decide) (by decide)

/-! ## C6: the `lowercase_token` field -/

lemma getD_of_length_le {l : List α} {n : Nat} {d : α} (h : l.length ≤ n) :
    l.getD n d = d := by
  simp [List.getD_eq_getElem?_getD, List.getElem?_len_le h]

lemma lt_length_of_tag_ne {wl : List WordListItem} {k : Nat}
    (h : (wl.getD k sentinelItem).tag ≠ "") : k < wl.length := by
  by_contra hc
  rw [getD_of_length_le (by omega)] at h
  exact h rfl

lemma lt_length_of_lowercase_ne {wl : List WordListItem} {k : Nat}
    (h : (wl.getD k sentinelItem).lowercase_token ≠ "") : k < wl.length := by
  by_contra hc
  rw [getD_of_length_le (by omega)] at h
  exact h rfl

set_option maxRecDepth 4000 in
/-- Counterexample for C6: running the pass on
`[("Is", VBZ), ("he", PRP), ("here", RB), (".", .)]`, the inversion rule
rewrites the original auxiliary's token to `"Is/moved"` but its
`lowercase_token` stays `"is"` — it is not the case-folded form of the
current token. -/
theorem c6_counterexample_stale_lowercase :
    (((apply_idea_counting_rules (fun _ _ => 0) 30
        (wordListItems [("Is", "VBZ"), ("he", "PRP"), ("here", "RB"),
          (".", ".")]) false).getD []).getD 10 sentinelItem).token =
      "Is/moved" ∧
    (((apply_idea_counting_rules (fun _ _ => 0) 30
        (wordListItems [("Is", "VBZ"), ("he", "PRP"), ("here", "RB"),
          (".", ".")]) false).getD []).getD 10 sentinelItem).lowercase_token =
      "is" ∧
    (((apply_idea_counting_rules (fun _ _ => 0) 30
        (wordListItems [("Is", "VBZ"), ("he", "PRP"), ("here", "RB"),
          (".", ".")]) false).getD []).getD 10 sentinelItem).lowercase_token ≠
      pyLower ((((apply_idea_counting_rules (fun _ _ => 0) 30
        (wordListItems [("Is", "VBZ"), ("he", "PRP"), ("here", "RB"),
          (".", ".")]) false).getD []).getD 10 sentinelItem).token) := by
  refine ⟨by decide, by decide, by decide⟩

/-- C6 as amended: `lowercase_token` is the case-folded form of the token
the item was constructed with; it is assigned only in the constructor and
is never recomputed when a rule rewrites `token` — the cardinal merge
(rule 003), the inversion moved-marker rewrite (rule 101) and the
"you know" filler merge (rule 634) all leave `lowercase_token` at its
constructed value while changing `token`. -/
theorem c6_amended_lowercase_set_only_at_construction :
    (∀ (token tag : String) (w p : Bool) (rn : Nat),
      (mkWordListItem token tag w p rn).lowercase_token = pyLower token) ∧
    (∀ (wl : List WordListItem) (i : Nat) (m : Bool),
      ((adjust_word_order wl i m).1.getD i sentinelItem).lowercase_token =
        (wl.getD i sentinelItem).lowercase_token) ∧
    (∀ (wl : List WordListItem) (i : Nat), 1 ≤ i →
      (wl.getD i sentinelItem).tag = "CD" →
      (wl.getD (i - 1) sentinelItem).tag = "CD" →
      ((rule003 wl i).1.getD (i - 1) sentinelItem).lowercase_token =
        (wl.getD (i - 1) sentinelItem).lowercase_token ∧
      ((rule003 wl i).1.getD (i - 1) sentinelItem).token =
        (wl.getD (i - 1) sentinelItem).token ++ " " ++
          (wl.getD i sentinelItem).token) ∧
    (∀ (wl : List WordListItem) (i : Nat), 1 ≤ i →
      (wl.getD (i - 1) sentinelItem).lowercase_token = "you" →
      (wl.getD i sentinelItem).lowercase_token = "know" →
      ((rule634 wl i).1.getD (i - 1) sentinelItem).lowercase_token = "you" ∧
      ((rule634 wl i).1.getD (i - 1) sentinelItem).token = "you_know" ∧
      (rule634 wl i).2 = i - 1) := by
  refine ⟨fun _ _ _ _ _ => rfl, ?_, ?_, ?_⟩
  · intro wl i m
    simp only [adjust_word_order]
    split
    · split
      · split
        · next htgt =>
          have hlen : i + 1 ≤ wl.length := by
            by_contra hc
            rw [findTargetPosition_of_length_le (by omega)] at htgt
            omega
          have htle : findTargetPosition wl (i + 1) ≤ wl.length :=
            findTargetPosition_le hlen
          rw [getD_set_self (by rw [length_pyInsert htle]; omega)]
        · rfl
      · rfl
    · rfl
  · intro wl i hi h1 h2
    have hin : i - 1 < wl.length :=
      lt_length_of_tag_ne (by rw [h2]; decide)
    simp only [rule003]
    rw [if_pos ⟨h1, h2⟩]
    simp only []
    rw [getD_pyDelete_lt (by omega), getD_set_self hin]
    exact ⟨by trivial, by trivial⟩
  · intro wl i hi hyou hknow
    have hin : i < wl.length :=
      lt_length_of_lowercase_ne (by rw [hknow]; decide)
    simp only [rule634]
    rw [if_pos ⟨by omega, hyou, hknow⟩]
    simp only []
    have hdel : (pyDelete wl i).length = wl.length - 1 :=
      length_pyDelete hin
    rw [getD_set_self (by rw [hdel]; omega)]
    exact ⟨by trivial, by trivial, by trivial⟩

/-- Witness for C6 (amended): the merge clauses applied to the concrete
pairs `"10"/CD "20"/CD` and `"you" "know"`. -/
theorem c6_witness :
    (((rule003 (wordListItems [("10", "CD"), ("20", "CD")]) 11).1.getD 10
        sentinelItem).lowercase_token =
      ((wordListItems [("10", "CD"), ("20", "CD")]).getD 10
        sentinelItem).lowercase_token ∧
    ((rule003 (wordListItems [("10", "CD"), ("20", "CD")]) 11).1.getD 10
        sentinelItem).token =
      ((wordListItems [("10", "CD"), ("20", "CD")]).getD 10
          sentinelItem).token ++ " " ++
        ((wordListItems [("10", "CD"), ("20", "CD")]).getD 11
          sentinelItem).token) ∧
    (((rule634 (wordListItems [("you", "PRP"), ("know", "VBP")]) 11).1.getD
        10 sentinelItem).lowercase_token = "you" ∧
    ((rule634 (wordListItems [("you", "PRP"), ("know", "VBP")]) 11).1.getD
        10 sentinelItem).token = "you_know" ∧
    (rule634 (wordListItems [("you", "PRP"), ("know", "VBP")]) 11).2 =
      11 - 1) := by
  constructor
  · have h := c6_amended_lowercase_set_only_at_construction.2.2.1
      (wordListItems [("10", "CD"), ("20", "CD")]) 11 (by decide) (by decide)
      (by decide)
    exact h
  · exact c6_amended_lowercase_set_only_at_construction.2.2.2
      (wordListItems [("you", "PRP"), ("know", "VBP")]) 11 (by decide)
      (by decide) (by decide)

/-! ## C8: subject–auxiliary inversion (rule 101) -/

lemma findTargetPositionAux_ge {wl : List WordListItem} :
    ∀ {fuel t : Nat}, t ≤ findTargetPositionAux wl t fuel := by
  intro fuel
  induction fuel with
  | zero => intro t; exact le_refl t
  | succ fuel ih =>
    intro t
    simp only [findTargetPositionAux]
    split
    · split
      · exact le_refl t
      · exact le_trans (by omega) (@ih (t + 1))
    · exact le_refl t

lemma findTargetPositionAux_not_before {wl : List WordListItem} :
    ∀ {fuel t k : Nat}, t ≤ k → k < findTargetPositionAux wl t fuel →
      ¬((wl.getD k sentinelItem).tag = SENTENCE_END ∨
        (wl.getD k sentinelItem).tag ∈ VERBS) := by
  intro fuel
  induction fuel with
  | zero => intro t k htk hk; simp only [findTargetPositionAux] at hk; omega
  | succ fuel ih =>
    intro t k htk hk
    simp only [findTargetPositionAux] at hk
    by_cases hlt : t < wl.length
    · rw [if_pos hlt] at hk
      by_cases hhit : (wl.getD t sentinelItem).tag = SENTENCE_END ∨
          (wl.getD t sentinelItem).tag ∈ VERBS
      · rw [if_pos hhit] at hk; omega
      · rw [if_neg hhit] at hk
        by_cases hek : k = t
        · exact hek ▸ hhit
        · exact @ih (t + 1) k (by omega) hk
    · rw [if_neg hlt] at hk; omega

lemma findTargetPositionAux_hit {wl : List WordListItem} :
    ∀ {fuel t : Nat}, wl.length - t ≤ fuel →
      findTargetPositionAux wl t fuel < wl.length →
      ((wl.getD (findTargetPositionAux wl t fuel) sentinelItem).tag =
          SENTENCE_END ∨
        (wl.getD (findTargetPositionAux wl t fuel) sentinelItem).tag ∈
          VERBS) := by
  intro fuel
  induction fuel with
  | zero =>
    intro t h hlt
    simp only [findTargetPositionAux] at hlt ⊢
    omega
  | succ fuel ih =>
    intro t h hlt
    simp only [findTargetPositionAux] at hlt ⊢
    by_cases hl : t < wl.length
    · rw [if_pos hl] at hlt ⊢
      by_cases hhit : (wl.getD t sentinelItem).tag = SENTENCE_END ∨
          (wl.getD t sentinelItem).tag ∈ VERBS
      · rw [if_pos hhit] at hlt ⊢
        exact hhit
      · rw [if_neg hhit] at hlt ⊢
        exact @ih (t + 1) (by omega) hlt
    · rw [if_neg hl] at hlt
      omega

/-- C8: when the current item's lowercase token is an auxiliary form and
it is either the first token of its sentence or its sentence starts with
an interrogative tag, `adjust_word_order` scans forward from `i + 1` to
the first verb-tag or sentence-end item (the scan inspects no earlier
position, and the target position, when inside the list, carries such a
tag); if the target is more than one position ahead, a copy of the
auxiliary (`is_word = true`, `is_proposition = true`, `rule_number = 101`)
is inserted at the target, the original is rewritten in place to an empty
tag, both flags false and the token suffixed with `"/moved"` (so exactly
one of the two — the copy — is counted), and the list grows by one item;
when the target is at most one position ahead, the list is returned
unchanged. -/
theorem c8_inversion_inserts_copy_and_neutralizes
    (wl : List WordListItem) (i : Nat) (m : Bool)
    (haux : (wl.getD i sentinelItem).lowercase_token ∈ AUXILIARY_VERBS)
    (hsent : beginning_of_sentence wl i = i ∨
      (wl.getD (beginning_of_sentence wl i) sentinelItem).tag ∈
        INTERROGATIVES) :
    (∀ k, i + 1 ≤ k → k < findTargetPosition wl (i + 1) →
      (wl.getD k sentinelItem).tag ≠ SENTENCE_END ∧
      (wl.getD k sentinelItem).tag ∉ VERBS) ∧
    (findTargetPosition wl (i + 1) < wl.length →
      ((wl.getD (findTargetPosition wl (i + 1)) sentinelItem).tag =
          SENTENCE_END ∨
        (wl.getD (findTargetPosition wl (i + 1)) sentinelItem).tag ∈
          VERBS)) ∧
    (findTargetPosition wl (i + 1) > i + 1 →
      adjust_word_order wl i m =
        ((pyInsert wl (findTargetPosition wl (i + 1))
            (mkWordListItem (wl.getD i sentinelItem).token
              (wl.getD i sentinelItem).tag true true 101)).set i
          { wl.getD i sentinelItem with tag := "", is_proposition := false, is_word := false, token := (wl.getD i sentinelItem).token ++ "/moved" },
          i) ∧
      (adjust_word_order wl i m).1.length = wl.length + 1 ∧
      ((adjust_word_order wl i m).1.getD (findTargetPosition wl (i + 1))
          sentinelItem).is_word = true ∧
      ((adjust_word_order wl i m).1.getD (findTargetPosition wl (i + 1))
          sentinelItem).is_proposition = true ∧
      ((adjust_word_order wl i m).1.getD (findTargetPosition wl (i + 1))
          sentinelItem).rule_number = 101 ∧
      ((adjust_word_order wl i m).1.getD i sentinelItem).is_word = false ∧
      ((adjust_word_order wl i m).1.getD i sentinelItem).is_proposition =
        false ∧
      ((adjust_word_order wl i m).1.getD i sentinelItem).tag = "" ∧
      ((adjust_word_order wl i m).1.getD i sentinelItem).token =
        (wl.getD i sentinelItem).token ++ "/moved") ∧
    (findTargetPosition wl (i + 1) ≤ i + 1 →
      adjust_word_order wl i m = (wl, i)) := by
  refine ⟨?_, ?_, ?_, ?_⟩
  · intro k h1 h2
    have h := @findTargetPositionAux_not_before wl
      (wl.length - (i + 1)) (i + 1) k h1 h2
    exact ⟨fun hc => h (Or.inl hc), fun hc => h (Or.inr hc)⟩
  · intro hlt
    exact @findTargetPositionAux_hit wl (wl.length - (i + 1)) (i + 1)
      (le_refl _) hlt
  · intro ht
    have hlen : i + 1 ≤ wl.length := by
      by_contra hc
      rw [findTargetPosition_of_length_le (by omega)] at ht
      omega
    have htle : findTargetPosition wl (i + 1) ≤ wl.length :=
      findTargetPosition_le hlen
    have heq : adjust_word_order wl i m =
        ((pyInsert wl (findTargetPosition wl (i + 1))
            (mkWordListItem (wl.getD i sentinelItem).token
              (wl.getD i sentinelItem).tag true true 101)).set i
          { wl.getD i sentinelItem with tag := "", is_proposition := false, is_word := false, token := (wl.getD i sentinelItem).token ++ "/moved" },
          i) := by
      simp only [adjust_word_order]
      rw [if_pos haux, if_pos hsent, if_pos ht]
    refine ⟨heq, ?_, ?_, ?_, ?_, ?_, ?_, ?_, ?_⟩ <;> rw [heq]
    · simp only []
      rw [List.length_set, length_pyInsert htle]
    all_goals simp only []
    · rw [getD_set_ne (by omega), getD_pyInsert_self htle]; rfl
    · rw [getD_set_ne (by omega), getD_pyInsert_self htle]; rfl
    · rw [getD_set_ne (by omega), getD_pyInsert_self htle]; rfl
    · rw [getD_set_self (by rw [length_pyInsert htle]; omega)]
    · rw [getD_set_self (by rw [length_pyInsert htle]; omega)]
    · rw [getD_set_self (by rw [length_pyInsert htle]; omega)]
    · rw [getD_set_self (by rw [length_pyInsert htle]; omega)]
  · intro hle
    simp only [adjust_word_order]
    rw [if_pos haux, if_pos hsent, if_neg (by omega)]

/-- Witness for C8: the inversion applied to the concrete question
`"Is he here ."` at the auxiliary (`i = 10`); the target is more than one
position ahead, and the list grows by one item. -/
theorem c8_witness :
    (adjust_word_order (wordListItems [("Is", "VBZ"), ("he", "PRP"),
        ("here", "RB"), (".", ".")]) 10 false).1.length =
      (wordListItems [("Is", "VBZ"), ("he", "PRP"), ("here", "RB"),
        (".", ".")]).length + 1 :=
  ((c8_inversion_inserts_copy_and_neutralizes
    (wordListItems [("Is", "VBZ"), ("he", "PRP"), ("here", "RB"),
      (".", ".")]) 10 false (by decide) (by decide)).2.2.1
    (by decide)).2.1

/-! ## C10: the rule pass diverges on auxiliary tokens without a
following verb or sentence end.

On the input `[("is", "NN"), ("is", "NN")]` (any token whose lowercase
form is an auxiliary, tagged with a non-verb tag, twice in a row, with no
sentence-end), every iteration of the driver loop fires rule 101: the
item after the neutralised prefix is an auxiliary at the start of its
"sentence" (the item before it has an empty tag), the forward scan never
meets a verb tag or a sentence end, so the target is the end of the list,
which is more than one position ahead — a fresh copy is appended, the
cursor advances by one, and the state has the same shape again, one
position further right.  The cursor never reaches the end of the growing
list. -/

lemma beginning_of_sentence_eq_self {wl : List WordListItem} {i : Nat}
    (hi : 2 ≤ i)
    (h : (wl.getD (i - 1) sentinelItem).tag = SENTENCE_END ∨
      (wl.getD (i - 1) sentinelItem).tag = "") :
    beginning_of_sentence wl i = i := by
  unfold beginning_of_sentence
  rw [if_neg (by omega)]
  obtain ⟨k, hk⟩ : ∃ k, i - 1 = k + 1 := ⟨i - 2, by omega⟩
  rw [hk]
  rw [hk] at h
  simp only [bosLoop]
  rw [if_neg (fun hc => h.elim (fun h1 => hc.1 h1) (fun h2 => hc.2 h2))]
  omega

lemma rule003_noop {wl : List WordListItem} {i : Nat}
    (h : (wl.getD i sentinelItem).tag ≠ "CD") : rule003 wl i = (wl, i) := by
  simp only [rule003]
  rw [if_neg (fun hc => h hc.1)]

lemma rule004_noop {wl : List WordListItem} {i : Nat}
    (h : (wl.getD i sentinelItem).tag ≠ "CD") : rule004 wl i = (wl, i) := by
  simp only [rule004]
  rw [if_neg (fun hc => h hc.1)]

lemma rule050_noop {wl : List WordListItem} {i : Nat}
    (h : (wl.getD i sentinelItem).lowercase_token = "is") :
    rule050 wl i = wl := by
  simp only [rule050]
  rw [if_neg (by rw [h]; decide)]

lemma handle_fillers_false (wl : List WordListItem) (i : Nat) :
    handle_fillers wl i false = (wl, i) := by
  simp [handle_fillers]

/-- The whole of `identify_potential_propositions` is the identity on an
item with an empty tag, lowercase token `"is"` and `is_word = false` (the
neutralised auxiliary left behind by rule 101). -/
lemma identify_potential_noop {wl : List WordListItem} {i : Nat} {m : Bool}
    (htag : (wl.getD i sentinelItem).tag = "")
    (hlc : (wl.getD i sentinelItem).lowercase_token = "is")
    (hisw : (wl.getD i sentinelItem).is_word = false) :
    identify_potential_propositions wl i m = (wl, i) := by
  have e200 : rule200 wl i = wl := by
    simp only [rule200]
    rw [if_neg (by rw [htag]; decide)]
  have e201 : rule201 wl i = wl := by
    simp only [rule201]
    rw [if_neg (by rw [hlc]; decide)]
  have e203 : rule203 wl i = wl := by
    simp only [rule203]
    rw [if_neg (fun hc => by rw [htag] at hc; exact absurd hc.1 (by decide))]
  have e204 : rule204 wl i = wl := by
    simp only [rule204]
    rw [if_neg (fun hc => by
      rw [hlc] at hc
      rcases hc with ⟨_, h2⟩ | ⟨_, h2⟩ <;> exact absurd h2 (by decide))]
  have e206 : rule206 wl i = wl := by
    simp only [rule206]
    rw [if_neg (fun hc => by rw [htag] at hc; exact absurd hc.1 (by decide))]
  have e207 : rule207 wl i = wl := by
    simp only [rule207]
    rw [if_neg (fun hc => by rw [htag] at hc; exact absurd hc.1 (by decide))]
  have e210 : rule210 wl i = wl := by
    simp only [rule210]
    rw [if_neg (by rw [htag]; decide)]
  have e211 : rule211 wl i = wl := by
    simp only [rule211]
    rw [if_neg (by rw [hlc]; decide)]
  have e212 : rule212 wl i = wl := by
    simp only [rule212]
    rw [if_neg (by rw [hlc]; decide)]
  have e213 : rule213 wl i = wl := by
    simp only [rule213]
    rw [if_neg (fun hc => by rw [htag] at hc; exact absurd hc.1 (by decide))]
  have e214 : rule214 wl i = wl := by
    simp only [rule214]
    rw [if_neg (fun hc => by rw [hisw] at hc; exact absurd hc.1 (by decide))]
  have e225 : rule225 wl i = wl := by
    simp only [rule225]
    rw [if_neg (fun hc => by rw [hlc] at hc; exact absurd hc.1 (by decide))]
  have e230 : rule230 wl i = wl := by
    simp only [rule230]
    rw [if_neg (fun hc => by
      rw [hlc] at hc
      rcases hc.1 with h2 | h2 <;> exact absurd h2 (by decide))]
  simp only [identify_potential_propositions, e200, e201, e203, e204, e206,
    e207, e210, e211, e212, e213, e214, e225, e230]

/-- `handle_linking_verbs` is the identity on an item with an empty tag. -/
lemma handle_linking_noop {wl : List WordListItem} {i : Nat} {m : Bool}
    (htag : (wl.getD i sentinelItem).tag = "") :
    handle_linking_verbs wl i m = (wl, i) := by
  have e301 : rule301 wl i = wl := by
    simp only [rule301]
    rw [if_neg (fun hc => by
      rw [htag] at hc
      rcases hc.1 with h2 | h2 <;> exact absurd h2 (by decide))]
  have e302 : rule302 wl i = wl := by
    simp only [rule302]
    rw [if_neg (fun hc => by rw [htag] at hc; exact absurd hc.1 (by decide))]
  have e310 : rule310 wl i = wl := by
    simp only [rule310]
    rw [if_neg (fun hc => by rw [htag] at hc; exact absurd hc.1 (by decide))]
  have e311 : rule311 wl i = wl := by
    simp only [rule311]
    rw [if_neg (by rw [htag]; decide)]
  simp only [handle_linking_verbs, e301, e302, e310, e311]

/-- `handle_auxiliary_verbs` is the identity on an item with an empty tag
and lowercase token `"is"` (rule 401 looks for the token "not", rules 402
and 405 for a verb tag). -/
lemma handle_aux_noop {wl : List WordListItem} {i : Nat} {m : Bool}
    (htag : (wl.getD i sentinelItem).tag = "")
    (hlc : (wl.getD i sentinelItem).lowercase_token = "is") :
    handle_auxiliary_verbs wl i m = (wl, i) := by
  have e401 : rule401 wl i = wl := by
    simp only [rule401]
    rw [if_neg (fun hc => by rw [hlc] at hc; exact absurd hc.1 (by decide))]
  have e402 : rule402 wl i = wl := by
    simp only [rule402]
    rw [if_neg (fun hc => by rw [htag] at hc; exact absurd hc.1 (by decide))]
  have e405 : rule405 wl i = wl := by
    simp only [rule405]
    rw [if_neg (fun hc => by rw [htag] at hc; exact absurd hc.1 (by decide))]
  simp only [handle_auxiliary_verbs, e401, e402, e405]

/-- `handle_constructions_involving_to` is the identity on an item with an
empty tag. -/
lemma handle_to_noop {wl : List WordListItem} {i : Nat} {m : Bool}
    (htag : (wl.getD i sentinelItem).tag = "") :
    handle_constructions_involving_to wl i m = (wl, i) := by
  have e510 : rule510 wl i = wl := by
    simp only [rule510]
    rw [if_neg (fun hc => by rw [htag] at hc; exact absurd hc.1 (by decide))]
  have e511 : rule511 wl i = wl := by
    simp only [rule511]
    rw [if_neg (fun hc => by rw [htag] at hc; exact absurd hc.1 (by decide))]
  simp only [handle_constructions_involving_to, e510, e511]

/-- An `"is"` token carrying the non-verb tag `"NN"`. -/
def isNNItem (w : WordListItem) : Prop :=
  w.token = "is" ∧ w.tag = "NN" ∧ w.lowercase_token = "is"

/-- The shape of the diverging loop's state: the cursor sits on an
`"is"/NN` item, another one follows it as the last item of the list, and
the item before the cursor has an empty tag. -/
def c10Inv (wl : List WordListItem) (i : Nat) : Prop :=
  10 ≤ i ∧ wl.length = i + 2 ∧ isNNItem (wl.getD i sentinelItem) ∧
  isNNItem (wl.getD (i + 1) sentinelItem) ∧
  (wl.getD (i - 1) sentinelItem).tag = ""

/-- One iteration of the driver loop from a `c10Inv` state reaches a
`c10Inv` state again, one position to the right: rule 101 appends a fresh
copy of the auxiliary at the end of the list and neutralises the current
item, and no other rule changes anything. -/
lemma c10_step {r : String → String → ℚ} {wl : List WordListItem} {i : Nat}
    (h : c10Inv wl i) :
    ∃ wl2, loopBody r wl i false = (wl2, i) ∧ c10Inv wl2 (i + 1) := by
  obtain ⟨hi, hlen, ⟨ht0, hg0, hl0⟩, hP1, htag1⟩ := h
  -- rule 002 fires and marks the current item as a word
  have e2 : rule002 wl i =
      wl.set i { wl.getD i sentinelItem with is_word := true, rule_number := 2 } := by
    simp only [rule002]
    rw [if_pos ⟨by rw [ht0]; decide, by rw [hg0]; decide⟩]
  have hAi : ((wl.set i { wl.getD i sentinelItem with is_word := true, rule_number := 2 }).getD i sentinelItem) =
      { wl.getD i sentinelItem with is_word := true, rule_number := 2 } :=
    getD_set_self (by omega)
  have hAlen : (wl.set i { wl.getD i sentinelItem with is_word := true, rule_number := 2 }).length = i + 2 := by
    rw [List.length_set]; exact hlen
  have hA_tag : ((wl.set i { wl.getD i sentinelItem with is_word := true, rule_number := 2 }).getD i sentinelItem).tag = "NN" := by
    rw [hAi]; exact hg0
  have hA_tok : ((wl.set i { wl.getD i sentinelItem with is_word := true, rule_number := 2 }).getD i sentinelItem).token = "is" := by
    rw [hAi]; exact ht0
  have hA_low : ((wl.set i { wl.getD i sentinelItem with is_word := true, rule_number := 2 }).getD i sentinelItem).lowercase_token = "is" := by
    rw [hAi]; exact hl0
  have hA_tag1 : ((wl.set i { wl.getD i sentinelItem with is_word := true, rule_number := 2 }).getD (i - 1) sentinelItem).tag = "" := by
    rw [getD_set_ne (by omega)]; exact htag1
  have hA_P1 : isNNItem ((wl.set i { wl.getD i sentinelItem with is_word := true, rule_number := 2 }).getD (i + 1) sentinelItem) := by
    rw [getD_set_ne (by omega)]; exact hP1
  have e_iw : identify_words_and_adjust_tags r wl i false =
      (wl.set i { wl.getD i sentinelItem with is_word := true, rule_number := 2 }, i) := by
    simp only [identify_words_and_adjust_tags, rule001_noop (by rw [ht0]; decide),
      e2, rule003_noop (by rw [hA_tag]; decide),
      rule004_noop (by rw [hA_tag]; decide), Bool.false_eq_true, if_false,
      rule050_noop hA_low, rule054_eq]
  -- rule 101 fires: the scan runs to the end of the list
  have htgt : findTargetPosition
      (wl.set i { wl.getD i sentinelItem with is_word := true, rule_number := 2 }) (i + 1) = i + 2 := by
    unfold findTargetPosition
    rw [hAlen]
    have h1 : i + 2 - (i + 1) = 1 := by omega
    rw [h1]
    simp only [findTargetPositionAux]
    rw [if_pos (by rw [hAlen]; omega),
      if_neg (by rw [getD_set_ne (by omega)]
                 intro hc
                 rcases hc with h2 | h2
                 · exact absurd (hP1.2.1 ▸ h2) (by decide)
                 · exact absurd (hP1.2.1 ▸ h2) (by decide))]
  have e_adj : adjust_word_order
      (wl.set i { wl.getD i sentinelItem with is_word := true, rule_number := 2 }) i false =
      ((pyInsert (wl.set i { wl.getD i sentinelItem with is_word := true, rule_number := 2 }) (i + 2)
          (mkWordListItem "is" "NN" true true 101)).set i
        ⟨"is/moved", "", false, false, 2, "is"⟩, i) := by
    simp only [adjust_word_order]
    rw [if_pos (by rw [hA_low]; decide),
      if_pos (Or.inl (beginning_of_sentence_eq_self (by omega)
        (Or.inr hA_tag1))),
      if_pos (by rw [htgt]; omega), htgt, hAi]
    simp only [ht0, hg0, hl0]
    rfl
  -- the neutralised item is inert for all later rule groups
  refine ⟨(pyInsert (wl.set i { wl.getD i sentinelItem with is_word := true, rule_number := 2 }) (i + 2)
      (mkWordListItem "is" "NN" true true 101)).set i
    ⟨"is/moved", "", false, false, 2, "is"⟩, ?_, ?_⟩
  · have hBi : (((pyInsert (wl.set i { wl.getD i sentinelItem with is_word := true, rule_number := 2 }) (i + 2)
        (mkWordListItem "is" "NN" true true 101)).set i
          ⟨"is/moved", "", false, false, 2, "is"⟩).getD i sentinelItem) =
        ⟨"is/moved", "", false, false, 2, "is"⟩ := by
      apply getD_set_self
      rw [length_pyInsert (by rw [hAlen])]
      omega
    simp only [loopBody, e_iw, e_adj,
      identify_potential_noop (by rw [hBi]) (by rw [hBi]) (by rw [hBi]),
      handle_linking_noop (by rw [hBi]),
      handle_aux_noop (by rw [hBi]) (by rw [hBi]),
      handle_to_noop (by rw [hBi]), handle_fillers_false]
  · refine ⟨by omega, ?_, ?_, ?_, ?_⟩
    · rw [List.length_set, length_pyInsert (by rw [hAlen]), hAlen]
    · rw [getD_set_ne (by omega),
        getD_pyInsert_lt (by omega) (by rw [hAlen]),
        getD_set_ne (by omega)]
      exact hP1
    · rw [getD_set_ne (by omega),
        show i + 1 + 1 = i + 2 from by omega,
        getD_pyInsert_self (by rw [hAlen])]
      exact ⟨rfl, rfl, by decide⟩
    · rw [show i + 1 - 1 = i from by omega,
        getD_set_self (by rw [length_pyInsert (by rw [hAlen])]; omega)]

/-- The one-step unfolding of the driver loop, stated with a variable
mode so that it can be instantiated at a literal one. -/
lemma loopAux_succ (r : String → String → ℚ) (m : Bool) (fuel : Nat)
    (wl : List WordListItem) (i : Nat) :
    loopAux r m (fuel + 1) wl i =
      if i < wl.length then
        if (wl.getD i sentinelItem).token = "" then
          loopAux r m fuel wl (i + 1)
        else
          loopAux r m fuel (loopBody r wl i m).1 ((loopBody r wl i m).2 + 1)
      else some wl := by
  simp only [loopAux]

set_option maxRecDepth 4000 in
/-- From any `c10Inv` state the driver loop never terminates, whatever
the fuel. -/
lemma c10_nonterm {r : String → String → ℚ} :
    ∀ (fuel : Nat) {wl : List WordListItem} {i : Nat}, c10Inv wl i →
      loopAux r false fuel wl i = Option.none := by
  intro fuel
  induction fuel with
  | zero => intro wl i _; rfl
  | succ fuel ih =>
    intro wl i h
    obtain ⟨wl2, hbody, hinv⟩ := @c10_step r wl i h
    rw [loopAux_succ]
    rw [if_pos (by obtain ⟨hi, hlen, _⟩ := h; omega),
      if_neg (by obtain ⟨_, _, ⟨ht, _⟩, _⟩ := h; rw [ht]; decide)]
    simp only [hbody]
    exact ih hinv

set_option maxRecDepth 4000 in
/-- C10, the divergence: on the word list built from
`[("is", "NN"), ("is", "NN")]` — two tokens whose lowercase form is an
auxiliary verb, carrying a non-verb tag, with nothing after them — the
rule-engine pass never terminates: for every fuel bound the driver loop is
still running (each iteration rule 101 appends a fresh copy of the
auxiliary and the cursor never catches up with the growing list).  The
claim that the pass terminates for every finite input sequence is
therefore false of the code. -/
theorem c10_rule_pass_diverges_on_aux_aux :
    ∀ (r : String → String → ℚ) (fuel : Nat),
      apply_idea_counting_rules r fuel
        (wordListItems [("is", "NN"), ("is", "NN")]) false = Option.none := by
  intro r fuel
  unfold apply_idea_counting_rules
  have hsp : sentinelPrefix (wordListItems [("is", "NN"), ("is", "NN")]) :=
    sentinelPrefix_wordListItems _
  have hinv10 : c10Inv (wordListItems [("is", "NN"), ("is", "NN")]) 10 := by
    unfold c10Inv isNNItem
    refine ⟨by decide, by decide, ⟨by decide, by decide, by decide⟩,
      ⟨by decide, by decide, by decide⟩, by decide⟩
  -- the loop skips the ten sentinel positions, then diverges
  have hskip : ∀ (f j : Nat), j ≤ 10 →
      loopAux r false f (wordListItems [("is", "NN"), ("is", "NN")]) j =
        Option.none := by
    intro f
    induction f with
    | zero => intro j _; rfl
    | succ f ih =>
      intro j hj
      by_cases hj10 : j = 10
      · subst hj10
        exact c10_nonterm (f + 1) hinv10
      · rw [loopAux_succ,
          if_pos (by simp [wordListItems, DEFAULT_ITEM_COUNT]; omega),
          if_pos (by rw [hsp.getD_eq (by omega)]; rfl)]
        exact ih (j + 1) (by omega)
  exact hskip fuel 0 (by omega)

end PyCPIDR
